import Mathlib

/- Verification development for the visual-qa-agent repository: a shallow
embedding of the check-matrix orchestration, DOM issue detection, issue
deduplication and pixel-comparison pipeline, together with theorems about
the stated properties of those components.

Sources embedded:
  - src/core/issue-detector.js   (IssueDetector: the DOM check battery)
  - src/core/visual-agent.js     (VisualQAAgent: checkPage, deduplicateIssues,
                                  getDevicesForProfile, runChecks)
  - src/analyzers/pixel-comparator.js (PixelComparator.compare)

Modelling conventions: JavaScript numbers are modelled as ℚ (rect geometry,
font sizes, thresholds) or Nat (pixel counts, viewport widths); the DOM
snapshot that the in-page `page.evaluate` scripts walk is modelled as
structured element lists carrying exactly the attributes those scripts read;
filesystem and browser I/O (screenshot bytes on disk, Date.now() path
components, console logging) is not modelled, and per-tuple navigation /
evaluation failures are modelled by an outcome oracle, one outcome per
(colorScheme, browser, device) tuple. -/

namespace VisualQA

/-- Viewport dimensions of a device profile. -/
structure Viewport where
  width : Nat
  height : Nat
deriving Repr, DecidableEq

/-- Device profile as consumed by the checks (id, display name, viewport,
mobile/touch flags); scale factor and user agent only configure the browser
context and are not read by any modelled code. -/
structure Device where
  id : String
  name : String
  viewport : Viewport
  is_mobile : Bool
  has_touch : Bool
deriving Repr, DecidableEq

/-- Issue severity enum: critical | warning | info. -/
inductive Severity where
  | critical
  | warning
  | info
deriving Repr, DecidableEq

/-- Issue type enum: layout | accessibility | typography | visual | javascript | network. -/
inductive IssueType where
  | layout
  | accessibility
  | typography
  | visual
  | javascript
  | network
deriving Repr, DecidableEq

/-- String form of an issue type, as interpolated into dedup keys by
`${issue.type}` in deduplicateIssues. -/
def typeStr : IssueType → String
  | IssueType.layout => "layout"
  | IssueType.accessibility => "accessibility"
  | IssueType.typography => "typography"
  | IssueType.visual => "visual"
  | IssueType.javascript => "javascript"
  | IssueType.network => "network"

/-- Element descriptor attached to an issue. The source attaches varying
diagnostic payloads (tag / className / width / right / src ...); the only
field any modelled consumer reads is `selector` (deduplicateIssues reads
`issue.element?.selector`), so that is the field we keep. -/
structure Element where
  selector : String
deriving Repr, DecidableEq

/-- Fix descriptor: action, target selector, human suggestion and optional
css / html snippet, as built by each check. -/
structure Fix where
  action : String
  target : String
  suggestion : String
  css : Option String := none
  html : Option String := none
deriving Repr, DecidableEq

/-- Issue record produced by the IssueDetector checks. `colorScheme` is
added by checkPage's dark-mode tagging; `affected_devices` is added by
deduplicateIssues (input issues carry the default `[]`). Issues with no
`viewport` / `wcag` key in the source carry `none`. -/
structure Issue where
  id : String
  type : IssueType
  severity : Severity
  title : String
  description : String
  device : String
  viewport : Option Viewport := none
  element : Option Element := none
  fix : Fix
  wcag : Option String := none
  blocks_release : Bool
  colorScheme : Option String := none
  affected_devices : List String := []
deriving Repr, DecidableEq

/-- RGB triple as produced by parseColor on a computed style string. -/
structure Rgb where
  r : Nat
  g : Nat
  b : Nat
deriving Repr, DecidableEq

/- ### Small JS-semantics helpers -/

/-- JS `a || b` on strings: empty string is falsy. -/
def jsOr (a b : String) : String :=
  if a = "" then b else a

/-- JS `o?.x || d` on an optional numeric config entry: absent or zero
(falsy) falls back to the default. -/
def jsOrNat (o : Option Nat) (d : Nat) : Nat :=
  match o with
  | some v => if v = 0 then d else v
  | none => d

/-- JS `o?.x || d` for rational config entries (same falsy-zero rule). -/
def jsOrRat (o : Option ℚ) (d : ℚ) : ℚ :=
  match o with
  | some v => if v = 0 then d else v
  | none => d

/-- First word of a className, JS `className.split(' ')[0]`. -/
def headWord (s : String) : String :=
  (s.splitOn " ").headD ""

/-- Selector derivation used by the detector scripts:
`el.id ? '#'+id : el.className ? '.'+firstClass : tagName`. -/
def selectorOf (idAttr className tag : String) : String :=
  if idAttr ≠ "" then "#" ++ idAttr
  else if className ≠ "" then "." ++ headWord className
  else tag

/-- Selector derivation in checkImageAlt:
`img.id ? '#'+id : img.className ? 'img.'+firstClass : 'img'`. -/
def imgSelectorOf (idAttr className : String) : String :=
  if idAttr ≠ "" then "#" ++ idAttr
  else if className ≠ "" then "img." ++ headWord className
  else "img"

/-- JS Math.round (round half toward positive infinity). -/
def mathRound (q : ℚ) : Int :=
  ⌊q + 1 / 2⌋

/-- Decimal rendering of Number.toFixed(2) for the nonnegative ratios this
code formats (round half up to two decimals). -/
def toFixed2 (q : ℚ) : String :=
  let n : Int := ⌊q * 100 + 1 / 2⌋
  let frac : Nat := (n % 100).natAbs
  toString (n / 100) ++ "." ++ (if frac < 10 then "0" ++ toString frac else toString frac)

/- ### IssueDetector: quality standards and DOM snapshot -/

/-- Configured quality standards; each entry is optional and the source
falls back to a default via `||`. -/
structure Standards where
  touch_min_size_px : Option Nat := none
  min_font_mobile : Option ℚ := none
  min_font_desktop : Option ℚ := none
deriving Repr, DecidableEq

/-- Element with bounding-rect geometry, as read by the horizontal-scroll
and element-overflow scans (`document.querySelectorAll('*')` respectively
`'img, video, iframe, table, pre, code'`). -/
structure RectEl where
  tag : String
  idAttr : String
  className : String
  width : ℚ
  right : ℚ
deriving Repr, DecidableEq

/-- Interactive element as read by the touch-target scan. -/
structure ClickEl where
  tag : String
  idAttr : String
  className : String
  textContent : String
  ariaLabel : String
  width : ℚ
  height : ℚ
deriving Repr, DecidableEq

/-- Text-bearing element as read by the contrast scan; `color` / `bgColor`
are the parseColor results on the computed styles (none when the regex does
not match). -/
structure TextEl where
  tag : String
  idAttr : String
  className : String
  textContent : String
  color : Option Rgb
  bgColor : Option Rgb
deriving Repr, DecidableEq

/-- Text element as read by the font-size scan. -/
structure FontEl where
  tag : String
  idAttr : String
  className : String
  textContent : String
  fontSize : ℚ
deriving Repr, DecidableEq

/-- Image element as read by the alt-text scan; `alt = none` models a
missing alt attribute, `alt = some ""` an empty one. -/
structure ImgEl where
  src : String
  idAttr : String
  className : String
  alt : Option String
  role : String
deriving Repr, DecidableEq

/-- Snapshot of everything the detector's page.evaluate scripts read from
the live DOM: document scroll/client widths and the per-check element
query results. -/
structure PageSnapshot where
  scrollWidth : Nat
  clientWidth : Nat
  allElements : List RectEl
  overflowEls : List RectEl
  clickables : List ClickEl
  textEls : List TextEl
  fontEls : List FontEl
  images : List ImgEl
deriving Repr, DecidableEq

/- ### IssueDetector: the check battery -/

/-- checkHorizontalScroll: fires when scrollWidth > clientWidth; attaches
the first element whose right edge exceeds clientWidth + 5 when one exists.
Severity critical, blocks_release true, id `horizontal-scroll-<deviceId>`. -/
def checkHorizontalScroll (page : PageSnapshot) (device : Device) : Option Issue :=
  if page.clientWidth < page.scrollWidth then
    let overflowing := page.allElements.find? (fun el => ((page.clientWidth : ℚ) + 5) < el.right)
    let sel : Option String := overflowing.map (fun el => selectorOf el.idAttr el.className el.tag)
    let target := sel.getD "body"
    some
      { id := "horizontal-scroll-" ++ device.id
        type := IssueType.layout
        severity := Severity.critical
        title := "Горизонтальный скролл на странице"
        description := "Страница имеет горизонтальную прокрутку на устройстве " ++ device.name
        device := device.name
        viewport := some device.viewport
        element := sel.map Element.mk
        fix :=
          { action := "css_change"
            target := target
            suggestion :=
              match overflowing with
              | some el =>
                  "Элемент " ++ (sel.getD "body") ++ " выходит за границы (" ++
                    toString (mathRound el.right) ++ "px > " ++
                    toString device.viewport.width ++
                    "px). Добавьте overflow-x: hidden или уменьшите ширину."
              | none =>
                  "Добавьте в body или html: overflow-x: hidden; или найдите элемент с фиксированной шириной больше viewport."
            css := some (target ++ " \x7b\n  max-width: 100%;\n  overflow-x: hidden;\n\x7d") }
        wcag := none
        blocks_release := true }
  else none

/-- Finding pushed by the element-overflow scan. -/
structure OverflowFinding where
  tag : String
  selector : String
  width : ℚ
  maxWidth : Nat
deriving Repr, DecidableEq

/-- Overflow scan body: a media/table/code element is pushed when its rect
width exceeds the document client width. -/
def overflowHit (docWidth : Nat) (el : RectEl) : Option OverflowFinding :=
  if (docWidth : ℚ) < el.width then
    some
      { tag := el.tag
        selector := selectorOf el.idAttr el.className el.tag
        width := el.width
        maxWidth := docWidth }
  else none

/-- Issue built for one overflow finding; id `overflow-<tag>-<deviceId>`,
severity critical, blocks_release true, no wcag key in the source. -/
def overflowIssue (device : Device) (el : OverflowFinding) : Issue :=
  { id := "overflow-" ++ el.tag ++ "-" ++ device.id
    type := IssueType.layout
    severity := Severity.critical
    title := "Элемент " ++ el.tag ++ " выходит за границы экрана"
    description :=
      el.selector ++ " шире viewport (" ++ toString (mathRound el.width) ++ "px > " ++
        toString el.maxWidth ++ "px)"
    device := device.name
    viewport := some device.viewport
    element := some ⟨el.selector⟩
    fix :=
      { action := "css_change"
        target := el.selector
        suggestion := "Добавьте max-width: 100% для " ++ el.selector
        css := some (el.selector ++ " \x7b\n  max-width: 100%;\n  height: auto;\n\x7d") }
    blocks_release := true }

/-- checkOverflow: one critical blocking issue per over-wide media element. -/
def checkOverflow (page : PageSnapshot) (device : Device) : List Issue :=
  ((page.overflowEls.foldl
      (fun results el =>
        match overflowHit page.clientWidth el with
        | some f => results ++ [f]
        | none => results) [])).map (overflowIssue device)

/-- Finding pushed by the touch-target scan. -/
structure TouchFinding where
  tag : String
  text : String
  selector : String
  width : ℚ
  height : ℚ
  size : ℚ
deriving Repr, DecidableEq

/-- Touch-target scan body: an interactive element is pushed when its
smaller rect dimension is positive but below the configured minimum. -/
def touchHit (minSize : Nat) (el : ClickEl) : Option TouchFinding :=
  let size := min el.width el.height
  if 0 < size ∧ size < (minSize : ℚ) then
    some
      { tag := el.tag
        text := jsOr (el.textContent.take 30) el.ariaLabel
        selector := selectorOf el.idAttr el.className el.tag
        width := el.width
        height := el.height
        size := size }
  else none

/-- Issue built for one touch-target finding; id
`touch-target-<selector>-<deviceId>`, warning, WCAG 2.5.5, non-blocking. -/
def touchIssue (minSize : Nat) (device : Device) (el : TouchFinding) : Issue :=
  { id := "touch-target-" ++ el.selector ++ "-" ++ device.id
    type := IssueType.accessibility
    severity := Severity.warning
    title := "Touch target слишком маленький: " ++ jsOr el.text el.tag
    description :=
      el.selector ++ " имеет размер " ++ toString (mathRound el.size) ++ "px (минимум " ++
        toString minSize ++ "px)"
    device := device.name
    viewport := some device.viewport
    element := some ⟨el.selector⟩
    fix :=
      { action := "css_change"
        target := el.selector
        suggestion :=
          "Увеличьте размер кликабельной области до минимум " ++ toString minSize ++ "x" ++
            toString minSize ++ "px"
        css :=
          some (el.selector ++ " \x7b\n  min-width: " ++ toString minSize ++
            "px;\n  min-height: " ++ toString minSize ++ "px;\n  padding: 12px;\n\x7d") }
    wcag := some "2.5.5"
    blocks_release := false }

/-- checkTouchTargets: scan all clickables, cap to the first 10 findings. -/
def checkTouchTargets (std : Standards) (page : PageSnapshot) (device : Device) : List Issue :=
  let minSize := jsOrNat std.touch_min_size_px 44
  ((page.clickables.foldl
      (fun results el =>
        match touchHit minSize el with
        | some f => results ++ [f]
        | none => results) []).take 10).map (touchIssue minSize device)

/- ### IssueDetector: contrast -/

/-- One sRGB channel of the WCAG relative-luminance formula. The source
computes `c <= 0.03928 ? c/12.92 : ((c+0.055)/1.055)^2.4`; the exponent 2.4
is not a rational operation, so the power curve is the parameter `g`
(applied to the already shifted-and-scaled channel), keeping every rational
part of the formula exact. -/
def srgbChannel (g : ℚ → ℚ) (c : Nat) : ℚ :=
  let cq : ℚ := (c : ℚ) / 255
  if cq ≤ 0.03928 then cq / 12.92 else g ((cq + 0.055) / 1.055)

/-- WCAG relative luminance `0.2126 R + 0.7152 G + 0.0722 B` over
gamma-corrected channels. -/
def getLuminance (g : ℚ → ℚ) (c : Rgb) : ℚ :=
  0.2126 * srgbChannel g c.r + 0.7152 * srgbChannel g c.g + 0.0722 * srgbChannel g c.b

/-- Contrast ratio `(lighter + 0.05) / (darker + 0.05)` (getContrastRatio
in the source). -/
def getContrastRatioOf (l1 l2 : ℚ) : ℚ :=
  (max l1 l2 + 0.05) / (min l1 l2 + 0.05)

/-- Contrast ratio of a foreground/background pair of parsed colors. -/
def contrastRatioVal (g : ℚ → ℚ) (color bg : Rgb) : ℚ :=
  getContrastRatioOf (getLuminance g color) (getLuminance g bg)

/-- Finding pushed by the contrast scan; `ratioText` is the source's
`ratio.toFixed(2)` string and `ratioVal` the underlying number. -/
structure ContrastFinding where
  tag : String
  text : String
  selector : String
  ratioText : String
  ratioVal : ℚ
  color : Rgb
  bgColor : Rgb
deriving Repr, DecidableEq

/-- Contrast scan body: both styles parse, the background is not the fully
transparent proxy (r+g+b = 0), and the ratio is strictly between 1 and 4.5. -/
def contrastHit (g : ℚ → ℚ) (el : TextEl) : Option ContrastFinding :=
  match el.color, el.bgColor with
  | some c, some bg =>
    if 0 < bg.r + bg.g + bg.b then
      let ratio := contrastRatioVal g c bg
      if ratio < 4.5 ∧ 1 < ratio then
        some
          { tag := el.tag
            text := el.textContent.take 30
            selector := selectorOf el.idAttr el.className el.tag
            ratioText := toFixed2 ratio
            ratioVal := ratio
            color := c
            bgColor := bg }
      else none
    else none
  | _, _ => none

/-- Low-contrast scan: push every matching text element, then slice to the
first 5. -/
def lowContrastElements (g : ℚ → ℚ) (els : List TextEl) : List ContrastFinding :=
  (els.foldl
    (fun results el =>
      match contrastHit g el with
      | some f => results ++ [f]
      | none => results) []).take 5

/-- Issue built for one contrast finding; id
`contrast-<selector>-<deviceId>`, warning, WCAG 1.4.3, non-blocking, no
viewport key in the source. -/
def contrastIssue (device : Device) (el : ContrastFinding) : Issue :=
  { id := "contrast-" ++ el.selector ++ "-" ++ device.id
    type := IssueType.accessibility
    severity := Severity.warning
    title := "Низкий контраст текста: \"" ++ el.text ++ "\""
    description := "Контраст " ++ el.ratioText ++ ":1 (требуется минимум 4.5:1 по WCAG AA)"
    device := device.name
    element := some ⟨el.selector⟩
    fix :=
      { action := "css_change"
        target := el.selector
        suggestion := "Увеличьте контраст: затемните текст или осветлите фон"
        css := some (el.selector ++ " \x7b\n  color: #333333; /* или темнее */\n\x7d") }
    wcag := some "1.4.3"
    blocks_release := false }

/-- checkContrast: capped low-contrast findings mapped to issues. -/
def checkContrast (g : ℚ → ℚ) (page : PageSnapshot) (device : Device) : List Issue :=
  (lowContrastElements g page.textEls).map (contrastIssue device)

/- ### IssueDetector: font size, image alt, overlap -/

/-- Finding pushed by the font-size scan. -/
structure FontFinding where
  tag : String
  text : String
  selector : String
  fontSize : ℚ
deriving Repr, DecidableEq

/-- Font-size scan body: the element has trimmed text and a positive font
size below the minimum. -/
def fontHit (minSize : ℚ) (el : FontEl) : Option FontFinding :=
  if ¬ el.textContent.trim = "" ∧ el.fontSize < minSize ∧ 0 < el.fontSize then
    some
      { tag := el.tag
        text := el.textContent.take 30
        selector := selectorOf el.idAttr el.className el.tag
        fontSize := el.fontSize }
  else none

/-- Issue built for one font-size finding; id
`font-size-<selector>-<deviceId>`, warning, WCAG 1.4.4, non-blocking. -/
def fontIssue (minSize : ℚ) (isMobile : Bool) (device : Device) (el : FontFinding) : Issue :=
  { id := "font-size-" ++ el.selector ++ "-" ++ device.id
    type := IssueType.typography
    severity := Severity.warning
    title := "Слишком мелкий текст: \"" ++ el.text ++ "\""
    description :=
      "Размер шрифта " ++ toString el.fontSize ++ "px (минимум " ++ toString minSize ++
        "px для " ++ (if isMobile then "мобильных" else "десктопа") ++ ")"
    device := device.name
    element := some ⟨el.selector⟩
    fix :=
      { action := "css_change"
        target := el.selector
        suggestion := "Увеличьте размер шрифта до минимум " ++ toString minSize ++ "px"
        css := some (el.selector ++ " \x7b\n  font-size: " ++ toString minSize ++ "px;\n\x7d") }
    wcag := some "1.4.4"
    blocks_release := false }

/-- checkFontSize: per-device-class minimum (mobile 14 / desktop 12 unless
configured), scan capped to 5 findings. -/
def checkFontSize (std : Standards) (page : PageSnapshot) (device : Device) : List Issue :=
  let minSize :=
    if device.is_mobile then jsOrRat std.min_font_mobile 14 else jsOrRat std.min_font_desktop 12
  ((page.fontEls.foldl
      (fun results el =>
        match fontHit minSize el with
        | some f => results ++ [f]
        | none => results) []).take 5).map (fontIssue minSize device.is_mobile device)

/-- Finding pushed by the image-alt scan. -/
structure ImgFinding where
  src : String
  selector : String
deriving Repr, DecidableEq

/-- Image-alt scan body: alt attribute absent and the image not decorative
(`role="presentation"` or empty alt). -/
def imgAltHit (img : ImgEl) : Option ImgFinding :=
  let isDecorative := img.role = "presentation" ∨ img.alt = some ""
  if img.alt = none ∧ ¬ isDecorative then
    some
      { src := img.src.take 50
        selector := imgSelectorOf img.idAttr img.className }
  else none

/-- Issue built for one image-alt finding; id `img-alt-<deviceId>` (note:
no selector component), critical, WCAG 1.1.1, blocking. -/
def imgAltIssue (device : Device) (img : ImgFinding) : Issue :=
  { id := "img-alt-" ++ device.id
    type := IssueType.accessibility
    severity := Severity.critical
    title := "Изображение без alt-текста"
    description := img.selector ++ " не имеет атрибута alt"
    device := device.name
    element := some ⟨img.selector⟩
    fix :=
      { action := "html_change"
        target := img.selector
        suggestion := "Добавьте описательный alt-текст или alt=\"\" для декоративных изображений"
        html := some "<img src=\"...\" alt=\"Описание изображения\">" }
    wcag := some "1.1.1"
    blocks_release := true }

/-- checkImageAlt: scan capped to 5 findings. -/
def checkImageAlt (page : PageSnapshot) (device : Device) : List Issue :=
  ((page.images.foldl
      (fun results img =>
        match imgAltHit img with
        | some f => results ++ [f]
        | none => results) []).take 5).map (imgAltIssue device)

/-- checkOverlap: stub in the source, always returns no issues. -/
def checkOverlap (_page : PageSnapshot) (_device : Device) : List Issue :=
  []

/- ### IssueDetector: prioritization and composition -/

/-- Numeric severity order used by prioritizeIssues. -/
def severityRank : Severity → Nat
  | Severity.critical => 0
  | Severity.warning => 1
  | Severity.info => 2

/-- Rank encoding the source's sort comparator (severity first, then
`accessibility` before other types of equal severity; 0 otherwise): the
comparator is exactly comparison of this lexicographic rank. -/
def prioRank (i : Issue) : Nat :=
  2 * severityRank i.severity + (if i.type = IssueType.accessibility then 0 else 1)

/-- prioritizeIssues: stable sort by the comparator (Array.prototype.sort
is stable; insertion sort by the non-strict rank order is stable). -/
def prioritizeIssues (issues : List Issue) : List Issue :=
  List.insertionSort (fun a b => prioRank a ≤ prioRank b) issues

/-- detectIssues: the fixed, ordered battery — horizontal scroll, element
overflow, touch targets (mobile/touch devices only), contrast, font size,
image alt, overlap stub — then priority sort. -/
def detectIssues (g : ℚ → ℚ) (std : Standards) (page : PageSnapshot) (device : Device) :
    List Issue :=
  prioritizeIssues
    ((checkHorizontalScroll page device).toList ++
      checkOverflow page device ++
      (if device.is_mobile ∨ device.has_touch then checkTouchTargets std page device else []) ++
      checkContrast g page device ++
      checkFontSize std page device ++
      checkImageAlt page device ++
      checkOverlap page device)

/-- Action summary generated for the agent from the deduplicated issues. -/
structure ActionSummary where
  total_issues : Nat
  blocks_release : Bool
  critical : Nat
  warning : Nat
  info : Nat
  layout : Nat
  accessibility : Nat
  typography : Nat
  action_required : String
deriving Repr, DecidableEq

/-- generateSummaryForAgent: severity/type counts plus a recommendation
string driven by the critical and warning buckets. -/
def generateSummaryForAgent (issues : List Issue) : ActionSummary :=
  let critical := issues.filter (fun i => i.severity = Severity.critical)
  let warnings := issues.filter (fun i => i.severity = Severity.warning)
  let infos := issues.filter (fun i => i.severity = Severity.info)
  { total_issues := issues.length
    blocks_release := decide (0 < critical.length)
    critical := critical.length
    warning := warnings.length
    info := infos.length
    layout := (issues.filter (fun i => i.type = IssueType.layout)).length
    accessibility := (issues.filter (fun i => i.type = IssueType.accessibility)).length
    typography := (issues.filter (fun i => i.type = IssueType.typography)).length
    action_required :=
      if 0 < critical.length then
        "БЛОКЕР: Исправьте " ++ toString critical.length ++ " критических проблем перед релизом"
      else if 0 < warnings.length then
        "Рекомендуется исправить " ++ toString warnings.length ++ " предупреждений"
      else "Все проверки пройдены" }

/- ### PixelComparator -/

/-- RGBA pixel. -/
structure Rgba where
  r : Nat
  g : Nat
  b : Nat
  a : Nat
deriving Repr, DecidableEq

/-- Decoded PNG raster: dimensions plus the pixel buffer. -/
structure Image where
  width : Nat
  height : Nat
  data : List Rgba
deriving Repr, DecidableEq

/-- PixelComparator options (constructor defaults); the diff colors only
influence the rendered diff raster, which is not modelled. -/
structure PixelCfg where
  threshold : ℚ := 0.1
  includeAA : Bool := true
  alpha : ℚ := 0.1
deriving Repr, DecidableEq

/-- Modelled from the spec: the per-pixel perceptual comparison is
delegated to the external pixelmatch library (not part of this repository);
its contract is "given two equal-size pixel buffers, a sensitivity
threshold, and an AA-inclusion flag, return the count of differing pixels".
We model the perceptual delta of a pixel pair as the normalized sum of
absolute channel differences — any metric satisfying the contract gives
delta p p = 0, the only property the theorems below use. -/
def pixelDelta (p q : Rgba) : ℚ :=
  ((((p.r : Int) - q.r).natAbs + (((p.g : Int) - q.g).natAbs) +
    (((p.b : Int) - q.b).natAbs) + (((p.a : Int) - q.a).natAbs) : Nat) : ℚ) / 1020

/-- Modelled from the spec: pixelmatch's differing-pixel count — the number
of positions whose perceptual delta exceeds the sensitivity threshold
(anti-aliasing classification lives inside the external library and is not
distinguished by any claim). -/
def pixelmatchCount (cfg : PixelCfg) (a b : List Rgba) : Nat :=
  (a.zip b).countP (fun pq => cfg.threshold < pixelDelta pq.1 pq.2)

/-- Rounding of `parseFloat(x.toFixed(4))` (round half up to 4 decimals at
the design level). -/
def roundTo4 (q : ℚ) : ℚ :=
  ((⌊q * 10000 + 1 / 2⌋ : ℤ) : ℚ) / 10000

/-- Result of PixelComparator.compare. The three source shapes (load
failure, size mismatch, successful diff) are disjoint object layouts, so
they are three constructors: a sizeMismatch result structurally carries no
diffPixels / diffPercent / matched fields. -/
inductive CompareOutcome where
  | loadError (message : String)
  | sizeMismatch (image1 : Nat × Nat) (image2 : Nat × Nat) (message : String)
  | ok (matched : Bool) (diffPixels : Nat) (totalPixels : Nat) (diffPercent : ℚ)
      (dimensions : Nat × Nat) (diffImagePath : Option String)
deriving Repr, DecidableEq

/-- PixelComparator.compare: load both images (none = decode failure),
terminate with sizeMismatch when width or height differ, otherwise count
differing pixels, compute the 4-decimal percentage, and report the diff
raster path only when diffPixels > 0. -/
def compare (cfg : PixelCfg) (img1 img2 : Option Image) (outputDiffPath : Option String) :
    CompareOutcome :=
  match img1, img2 with
  | some i1, some i2 =>
    if i1.width ≠ i2.width ∨ i1.height ≠ i2.height then
      CompareOutcome.sizeMismatch (i1.width, i1.height) (i2.width, i2.height)
        ("Размеры изображений различаются: " ++ toString i1.width ++ "x" ++
          toString i1.height ++ " vs " ++ toString i2.width ++ "x" ++ toString i2.height)
    else
      let diffPixels := pixelmatchCount cfg i1.data i2.data
      let totalPixels := i1.width * i1.height
      let diffPercent := roundTo4 ((diffPixels : ℚ) / (totalPixels : ℚ) * 100)
      CompareOutcome.ok (decide (diffPixels = 0)) diffPixels totalPixels diffPercent
        (i1.width, i1.height)
        (if 0 < diffPixels then outputDiffPath else none)
  | _, _ => CompareOutcome.loadError "Не удалось загрузить изображения"

/-- Whether compare writes a diff raster to disk: the source guards the
write with `outputDiffPath && diffPixels > 0`. -/
def compareWritesDiff (cfg : PixelCfg) (img1 img2 : Option Image)
    (outputDiffPath : Option String) : Bool :=
  match img1, img2 with
  | some i1, some i2 =>
    if i1.width ≠ i2.width ∨ i1.height ≠ i2.height then false
    else outputDiffPath.isSome && decide (0 < pixelmatchCount cfg i1.data i2.data)
  | _, _ => false

/- ### VisualQAAgent: device-profile resolution -/

/-- One device profile value inside a category of devices.json. -/
structure DeviceEntry where
  name : String
  viewport : Viewport
  is_mobile : Bool := false
  has_touch : Bool := false
deriving Repr, DecidableEq

/-- A test profile's device list: the sentinel "all" or explicit ids. -/
inductive DeviceSel where
  | all
  | ids (l : List String)
deriving Repr, DecidableEq

/-- Test profile: device selection plus browser engine names. -/
structure TestProfile where
  devices : DeviceSel
  browsers : List String
deriving Repr, DecidableEq

/-- devices.json: named test profiles and categorized device profiles
(association lists preserve JSON object insertion order, which
Object.values / Object.entries iterate). -/
structure DevicesConfig where
  test_profiles : List (String × TestProfile)
  device_profiles : List (String × List (String × DeviceEntry))
deriving Repr, DecidableEq

/-- Spread of a device entry with its id, `{ id, ...device }`. -/
def mkDevice (id : String) (e : DeviceEntry) : Device :=
  { id := id
    name := e.name
    viewport := e.viewport
    is_mobile := e.is_mobile
    has_touch := e.has_touch }

/-- getDevicesForProfile: throws for an unknown profile name; "all" walks
every category in order; an explicit id list takes, for each id, the first
category containing it — ids found in no category contribute nothing. -/
def getDevicesForProfile (cfg : DevicesConfig) (profileName : String) :
    Except String (List Device × List String) :=
  match cfg.test_profiles.lookup profileName with
  | none => Except.error ("Профиль \"" ++ profileName ++ "\" не найден")
  | some profile =>
    let devicesList :=
      match profile.devices with
      | DeviceSel.all =>
        cfg.device_profiles.flatMap (fun cat => cat.2.map (fun p => mkDevice p.1 p.2))
      | DeviceSel.ids ids =>
        ids.filterMap (fun deviceId =>
          (cfg.device_profiles.findSome? (fun cat => cat.2.lookup deviceId)).map
            (mkDevice deviceId))
    Except.ok (devicesList, profile.browsers)

/- ### VisualQAAgent: issue deduplication -/

/-- Dedup key `${issue.type}-${issue.element?.selector || issue.title}`:
the title is the fallback when the element is absent or its selector is
the empty string (falsy). -/
def dedupKey (i : Issue) : String :=
  typeStr i.type ++ "-" ++
    (match i.element with
     | some el => if el.selector = "" then i.title else el.selector
     | none => i.title)

/-- Append with set semantics, `if (!list.includes(d)) list.push(d)`. -/
def pushUnique (ds : List String) (d : String) : List String :=
  if d ∈ ds then ds else ds ++ [d]

/-- Accrete one device label onto a canonical issue's affected_devices. -/
def addDevice (existing : Issue) (d : String) : Issue :=
  { existing with affected_devices := pushUnique existing.affected_devices d }

/-- One step of deduplicateIssues' loop over the insertion-ordered map: a
seen key accretes the issue's device onto the canonical record; a new key
appends a copy of the issue with `affected_devices = [issue.device]`.
(The source's `if (!existing.affected_devices)` re-initialization is dead:
the first insertion always sets affected_devices.) -/
def insertIssue (seen : List Issue) (issue : Issue) : List Issue :=
  if seen.any (fun j => dedupKey j = dedupKey issue) then
    seen.map (fun j => if dedupKey j = dedupKey issue then addDevice j issue.device else j)
  else
    seen ++ [{ issue with affected_devices := [issue.device] }]

/-- deduplicateIssues: fold the issue list through the insertion-ordered
map and return its values. -/
def deduplicateIssues (issues : List Issue) : List Issue :=
  issues.foldl insertIssue []

/- ### VisualQAAgent: checkPage -/

/-- Outcome of one (colorScheme, browser, device) tuple, abstracting the
browser round trip: a successful capture yields the detector's issues and
the screenshot byte length; a thrown error (navigation timeout, detector
exception escaping the per-check guards, ...) yields the error message. -/
inductive TupleOutcome where
  | ok (issues : List Issue) (screenshotLen : Nat)
  | err (message : String)
deriving Repr, DecidableEq

/-- Untyped issue records pushed by runChecks' layout / visual checks. -/
structure BasicIssue where
  btype : String
  severity : String
  message : String
deriving Repr, DecidableEq

/-- checkLayout: a warning when the captured metadata viewport width does
not match the device's configured width (hasCritical is never set). -/
def checkLayoutModel (metaViewport : Option Viewport) (device : Device) : List BasicIssue :=
  match metaViewport with
  | some vp =>
    if vp.width ≠ device.viewport.width then
      [{ btype := "layout"
         severity := "warning"
         message :=
           "Ширина viewport не соответствует: ожидалось " ++ toString device.viewport.width ++
             "px, получено " ++ toString vp.width ++ "px" }]
    else []
  | none => []

/-- basicVisualCheck: a critical visual record when the screenshot byte
length is suspiciously small. -/
def basicVisualCheckModel (screenshotLen : Nat) : List BasicIssue :=
  if screenshotLen < 1000 then
    [{ btype := "visual"
       severity := "critical"
       message := "Скриншот слишком маленький - возможно страница не загрузилась" }]
  else []

/-- runChecks status: 'warning' when checkLayout reported (its hasCritical
flag is never true), otherwise 'passed'; basicVisualCheck never alters it. -/
def runChecksStatus (metaViewport : Option Viewport) (device : Device) : String :=
  if (checkLayoutModel metaViewport device).length ≠ 0 then "warning" else "passed"

/-- runChecks issues: layout records then visual records. -/
def runChecksIssues (screenshotLen : Nat) (metaViewport : Option Viewport) (device : Device) :
    List BasicIssue :=
  checkLayoutModel metaViewport device ++ basicVisualCheckModel screenshotLen

/-- Per-tuple record pushed into results.checks. Error records carry only
the identification fields plus status/error; screenshot paths (Date.now()
based) and the runChecks metrics timestamps are I/O and not modelled. -/
structure CheckRecord where
  device : String
  device_id : String
  browser : String
  colorScheme : String
  viewport : Option Viewport := none
  is_mobile : Option Bool := none
  status : String
  issues_count : Option Nat := none
  check_issues : List BasicIssue := []
  error : Option String := none
deriving Repr, DecidableEq

/-- Device label used in records and dark-mode tagging:
`name (Dark)` under the dark scheme. -/
def darkLabel (colorScheme : String) (device : Device) : String :=
  if colorScheme = "dark" then device.name ++ " (Dark)" else device.name

/-- Dark-mode tagging of detected issues: under the dark scheme every
issue gets colorScheme 'dark' and a `[Dark Mode]` title prefix. -/
def tagDark (colorScheme : String) (issues : List Issue) : List Issue :=
  if colorScheme = "dark" then
    issues.map (fun i => { i with colorScheme := some "dark", title := "[Dark Mode] " ++ i.title })
  else issues

/-- Tuple status from the detector's issues: failed on any critical, else
warning on any warning, else passed. -/
def statusOf (issues : List Issue) : String :=
  if issues.any (fun i => i.severity = Severity.critical) then "failed"
  else if issues.any (fun i => i.severity = Severity.warning) then "warning"
  else "passed"

/-- The check record produced for one tuple. On success the record spreads
`...checkResults` last, so its `status` is runChecks' status (computed over
the metadata viewport, which captureScreenshot sets to the device's own
viewport) — not the detector-derived status used for the summary counters. -/
def recordFor (f : String → String → Device → TupleOutcome)
    (t : String × String × Device) : CheckRecord :=
  match f t.1 t.2.1 t.2.2 with
  | TupleOutcome.err msg =>
    { device := darkLabel t.1 t.2.2
      device_id := t.2.2.id
      browser := t.2.1
      colorScheme := t.1
      status := "error"
      error := some msg }
  | TupleOutcome.ok issues screenshotLen =>
    let tagged := tagDark t.1 issues
    { device := darkLabel t.1 t.2.2
      device_id := t.2.2.id
      browser := t.2.1
      colorScheme := t.1
      viewport := some t.2.2.viewport
      is_mobile := some t.2.2.is_mobile
      status := runChecksStatus (some t.2.2.viewport) t.2.2
      issues_count := some tagged.length
      check_issues := runChecksIssues screenshotLen (some t.2.2.viewport) t.2.2 }

/-- The (dark-tagged) issues a tuple contributes to allIssues. -/
def issuesFor (f : String → String → Device → TupleOutcome)
    (t : String × String × Device) : List Issue :=
  match f t.1 t.2.1 t.2.2 with
  | TupleOutcome.err _ => []
  | TupleOutcome.ok issues _ => tagDark t.1 issues

/-- The detector-derived status used for the summary counters ('error' for
a thrown tuple). -/
def tupleStatus (f : String → String → Device → TupleOutcome)
    (t : String × String × Device) : String :=
  match f t.1 t.2.1 t.2.2 with
  | TupleOutcome.err _ => "error"
  | TupleOutcome.ok issues _ => statusOf (tagDark t.1 issues)

/-- Loop state of checkPage: accumulated records, accumulated raw issues,
and the summary counters. -/
structure CheckPageState where
  checks : List CheckRecord
  allIssues : List Issue
  total : Nat
  passed : Nat
  failed : Nat
  warnings : Nat
deriving Repr, DecidableEq

/-- One iteration of checkPage's tuple loop. A successful tuple pushes its
record, appends its tagged issues, increments total and exactly one of
passed/failed/warnings (by the detector-derived status); a thrown tuple is
caught, pushes an error record and increments only failed. -/
def processTuple (f : String → String → Device → TupleOutcome)
    (st : CheckPageState) (t : String × String × Device) : CheckPageState :=
  match f t.1 t.2.1 t.2.2 with
  | TupleOutcome.err _ =>
    { st with
      checks := st.checks ++ [recordFor f t]
      failed := st.failed + 1 }
  | TupleOutcome.ok issues _ =>
    let tagged := tagDark t.1 issues
    let status := statusOf tagged
    { checks := st.checks ++ [recordFor f t]
      allIssues := st.allIssues ++ tagged
      total := st.total + 1
      passed := st.passed + (if status = "passed" then 1 else 0)
      failed := st.failed + (if status = "passed" then 0 else if status = "failed" then 1 else 0)
      warnings :=
        st.warnings + (if status = "passed" then 0 else if status = "failed" then 0 else 1) }

/-- The deterministic tuple order: color schemes outermost, then browsers,
then devices. -/
def tupleList (colorSchemes browsers : List String) (devices : List Device) :
    List (String × String × Device) :=
  colorSchemes.flatMap (fun cs => browsers.flatMap (fun b => devices.map (fun d => (cs, b, d))))

/-- Color schemes for a run: light always, dark appended on request. -/
def colorSchemesFor (checkDarkMode : Bool) : List String :=
  if checkDarkMode then ["light", "dark"] else ["light"]

/-- Summary block of a CheckResult. -/
structure Summary where
  total : Nat
  passed : Nat
  failed : Nat
  warnings : Nat
  blocks_release : Bool
deriving Repr, DecidableEq

/-- Aggregate result of checkPage (url/profile/timestamp echo fields are
not modelled). -/
structure CheckResult where
  checks : List CheckRecord
  issues : List Issue
  summary : Summary
  action_summary : ActionSummary
deriving Repr, DecidableEq

/-- Initial checkPage state. -/
def initState : CheckPageState :=
  { checks := [], allIssues := [], total := 0, passed := 0, failed := 0, warnings := 0 }

/-- checkPage over an already-resolved matrix: fold every tuple through the
guarded loop body, deduplicate the accumulated issues, and derive the
blocking verdict (`issues.some(i => i.blocks_release)`) and action summary. -/
def checkPage (colorSchemes browsers : List String) (devices : List Device)
    (f : String → String → Device → TupleOutcome) : CheckResult :=
  let st := (tupleList colorSchemes browsers devices).foldl (processTuple f) initState
  let deduped := deduplicateIssues st.allIssues
  { checks := st.checks
    issues := deduped
    summary :=
      { total := st.total
        passed := st.passed
        failed := st.failed
        warnings := st.warnings
        blocks_release := deduped.any (fun i => i.blocks_release) }
    action_summary := generateSummaryForAgent deduped }

/- ### Deduplication theory -/

/-- Accretion of a device-label batch onto a canonical issue: fold every
issue's device through the set-semantics push. -/
def accrete (a : Issue) (l : List Issue) : Issue :=
  { a with
    affected_devices := l.foldl (fun ds j => pushUnique ds j.device) a.affected_devices }

/-- Reference recursion for deduplicateIssues (proof device): collapse the
head's key group onto the head, recurse on the remaining keys. -/
def dedupRef : List Issue → List Issue
  | [] => []
  | i :: rest =>
    accrete { i with affected_devices := [i.device] }
        (rest.filter (fun j => dedupKey j = dedupKey i)) ::
      dedupRef (rest.filter (fun j => ¬ dedupKey j = dedupKey i))
  termination_by l => l.length
  decreasing_by
    simp only [List.length_cons]
    exact Nat.lt_succ_of_le (List.length_filter_le _ _)

theorem dedupRef_nil : dedupRef [] = [] := by
  rw [dedupRef.eq_def]

theorem dedupRef_cons (i : Issue) (rest : List Issue) :
    dedupRef (i :: rest) =
      accrete { i with affected_devices := [i.device] }
          (rest.filter (fun j => dedupKey j = dedupKey i)) ::
        dedupRef (rest.filter (fun j => ¬ dedupKey j = dedupKey i)) := by
  rw [dedupRef.eq_def]

theorem dedupKey_addDevice (j : Issue) (d : String) : dedupKey (addDevice j d) = dedupKey j := rfl

theorem dedupKey_set_affected (i : Issue) (x : List String) :
    dedupKey { i with affected_devices := x } = dedupKey i := rfl

theorem dedupKey_accrete (a : Issue) (l : List Issue) : dedupKey (accrete a l) = dedupKey a := rfl

theorem accrete_nil (a : Issue) : accrete a [] = a := rfl

theorem accrete_cons (a : Issue) (j : Issue) (l : List Issue) :
    accrete a (j :: l) = accrete (addDevice a j.device) l := rfl

/-- find? over a filter lifts to find? over the base list when the search
predicate implies the filter predicate. -/
theorem find?_filter_of_imp {α} (p q : α → Bool) (l : List α)
    (h : ∀ x, p x = true → q x = true) :
    ∀ b, (l.filter q).find? p = some b → l.find? p = some b := by
  induction l with
  | nil => intro b hb; simp at hb
  | cons x xs ih =>
    intro b hb
    by_cases hq : q x = true
    · rw [List.filter_cons_of_pos hq] at hb
      by_cases hp : p x = true
      · rw [List.find?_cons_of_pos _ hp] at hb ⊢
        exact hb
      · rw [List.find?_cons_of_neg _ (by simpa using hp)] at hb ⊢
        exact ih b hb
    · rw [List.filter_cons_of_neg (by simpa using hq)] at hb
      have hp : ¬ p x = true := fun hpx => hq (h x hpx)
      rw [List.find?_cons_of_neg _ (by simpa using hp)]
      exact ih b hb

/-- Map commutes with a filter whose predicate factors through the map. -/
theorem map_filter_through {α β} (f : α → β) (p : β → Bool) (l : List α) :
    (l.filter (fun x => p (f x))).map f = (l.map f).filter p := by
  induction l with
  | nil => rfl
  | cons x xs ih =>
    by_cases h : p (f x) = true
    · simp [List.filter_cons, h, ih]
    · simp at h
      simp [List.filter_cons, h, ih]

/-- Characterization of deduplicateIssues' fold against the reference
recursion: entries already in the map accrete every later device of their
key, and the fresh keys produce the reference result. -/
theorem foldl_insertIssue_eq :
    ∀ (issues acc : List Issue), (acc.map dedupKey).Nodup →
      issues.foldl insertIssue acc =
        acc.map (fun a => accrete a (issues.filter (fun x => dedupKey x = dedupKey a))) ++
          dedupRef (issues.filter (fun x => ¬ dedupKey x ∈ acc.map dedupKey)) := by
  intro issues
  induction issues with
  | nil =>
    intro acc _
    simp [dedupRef_nil, accrete_nil]
  | cons i rest ih =>
    intro acc hnd
    rw [List.foldl_cons]
    have hany : (acc.any (fun j => dedupKey j = dedupKey i) = true) ↔
        dedupKey i ∈ acc.map dedupKey := by
      simp [List.any_eq_true, List.mem_map]
    by_cases hmem : dedupKey i ∈ acc.map dedupKey
    · -- existing key: the canonical record accretes this device
      have hins : insertIssue acc i =
          acc.map (fun j => if dedupKey j = dedupKey i then addDevice j i.device else j) := by
        simp only [insertIssue]
        rw [if_pos (hany.mpr hmem)]
      rw [hins]
      have hkeys :
          (acc.map (fun j => if dedupKey j = dedupKey i then addDevice j i.device else j)).map
              dedupKey = acc.map dedupKey := by
        rw [List.map_map]
        apply List.map_congr_left
        intro a _
        by_cases h : dedupKey a = dedupKey i <;> simp [h, dedupKey_addDevice]
      rw [ih _ (by rw [hkeys]; exact hnd)]
      congr 1
      · -- accreted canonical records of the old keys
        rw [List.map_map]
        apply List.map_congr_left
        intro a _
        by_cases h : dedupKey a = dedupKey i
        · have hcond : dedupKey i = dedupKey a := h.symm
          simp only [Function.comp, if_pos h, dedupKey_addDevice]
          rw [List.filter_cons_of_pos (by simpa using hcond), ← accrete_cons]
        · simp only [Function.comp, if_neg h]
          rw [List.filter_cons_of_neg (by simpa using fun hc => h hc.symm)]
      · -- the fresh-key part is unchanged
        rw [hkeys, List.filter_cons_of_neg (by simpa using hmem)]
    · -- fresh key: a canonical copy is appended
      have hins : insertIssue acc i =
          acc ++ [{ i with affected_devices := [i.device] }] := by
        simp only [insertIssue]
        rw [if_neg (fun hc => hmem (hany.mp hc))]
      rw [hins]
      have hkeys : ((acc ++ [{ i with affected_devices := [i.device] }]).map dedupKey) =
          acc.map dedupKey ++ [dedupKey i] := by
        rw [List.map_append]
        rfl
      have hnd2 : ((acc ++ [{ i with affected_devices := [i.device] }]).map dedupKey).Nodup := by
        rw [hkeys, List.nodup_append]
        exact ⟨hnd, List.nodup_singleton _, by simpa [List.disjoint_singleton] using hmem⟩
      rw [ih _ hnd2, List.map_append]
      have hhead : (i :: rest).filter (fun x => ¬ dedupKey x ∈ acc.map dedupKey) =
          i :: rest.filter (fun x => ¬ dedupKey x ∈ acc.map dedupKey) :=
        List.filter_cons_of_pos (by simpa using hmem)
      rw [hhead, dedupRef_cons]
      have hgroup :
          (rest.filter (fun x => ¬ dedupKey x ∈ acc.map dedupKey)).filter
              (fun j => dedupKey j = dedupKey i) =
            rest.filter (fun j => dedupKey j = dedupKey i) := by
        rw [List.filter_filter]
        apply List.filter_congr
        intro x _
        by_cases h : dedupKey x = dedupKey i
        · simp [h, hmem]
        · simp [h]
      have hrest :
          (rest.filter (fun x => ¬ dedupKey x ∈ acc.map dedupKey)).filter
              (fun j => ¬ dedupKey j = dedupKey i) =
            rest.filter (fun x =>
              ¬ dedupKey x ∈ (acc ++ [{ i with affected_devices := [i.device] }]).map dedupKey) := by
        rw [List.filter_filter, hkeys]
        apply List.filter_congr
        intro x _
        by_cases h : dedupKey x = dedupKey i <;>
          by_cases h2 : dedupKey x ∈ acc.map dedupKey <;> simp [h, h2]
      rw [hgroup, hrest]
      have hacc : ∀ a ∈ acc,
          accrete a ((i :: rest).filter (fun x => dedupKey x = dedupKey a)) =
            accrete a (rest.filter (fun x => dedupKey x = dedupKey a)) := by
        intro a ha
        have hne : ¬ dedupKey i = dedupKey a := by
          intro hc
          exact hmem (hc ▸ List.mem_map_of_mem dedupKey ha)
        rw [List.filter_cons_of_neg (by simpa using hne)]
      rw [List.map_congr_left hacc]
      have hsingle :
          [{ i with affected_devices := [i.device] }].map
              (fun a => accrete a (rest.filter (fun x => dedupKey x = dedupKey a))) =
            [accrete { i with affected_devices := [i.device] }
              (rest.filter (fun j => dedupKey j = dedupKey i))] := by
        simp [dedupKey_set_affected]
      rw [hsingle, List.append_assoc]
      rfl

/-- deduplicateIssues agrees with the reference recursion. -/
theorem deduplicateIssues_eq_dedupRef (issues : List Issue) :
    deduplicateIssues issues = dedupRef issues := by
  have h := foldl_insertIssue_eq issues [] (by simp)
  simpa [deduplicateIssues] using h

/-- Every canonical record of the reference recursion carries a key of the
input list. -/
theorem dedupRef_key_mem :
    ∀ (l : List Issue) (j : Issue), j ∈ dedupRef l → dedupKey j ∈ l.map dedupKey := by
  have H : ∀ n (l : List Issue), l.length = n →
      ∀ j ∈ dedupRef l, dedupKey j ∈ l.map dedupKey := by
    intro n
    induction n using Nat.strong_induction_on with
    | _ n ih =>
      intro l hl j hj
      match l with
      | [] => rw [dedupRef_nil] at hj; simp at hj
      | i :: rest =>
        rw [dedupRef_cons] at hj
        rcases List.mem_cons.mp hj with h | h
        · rw [h, dedupKey_accrete, dedupKey_set_affected]
          simp
        · have hlen : (rest.filter (fun j => ¬ dedupKey j = dedupKey i)).length < n := by
            have := List.length_filter_le (fun j => ¬ dedupKey j = dedupKey i) rest
            simp only [List.length_cons] at hl
            omega
          have hmem := ih _ hlen _ rfl j h
          rcases List.mem_map.mp hmem with ⟨x, hx, hxe⟩
          have : x ∈ rest := List.mem_of_mem_filter hx
          rw [List.map_cons]
          exact List.mem_cons_of_mem _ (hxe ▸ List.mem_map_of_mem dedupKey this)
  intro l j hj
  exact H l.length l rfl j hj

/-- Per-key characterization of the reference recursion: a key's group in
the output is exactly the collapse of its first occurrence, its
affected_devices accumulated from the group's device labels in order. -/
theorem dedupRef_filter_key_eq :
    ∀ (l : List Issue) (K : String),
      (dedupRef l).filter (fun j => dedupKey j = K) =
        match l.filter (fun i => dedupKey i = K) with
        | [] => []
        | f :: r =>
          [{ f with
              affected_devices := r.foldl (fun ds j => pushUnique ds j.device) [f.device] }] := by
  have H : ∀ n (l : List Issue), l.length = n → ∀ K : String,
      (dedupRef l).filter (fun j => dedupKey j = K) =
        match l.filter (fun i => dedupKey i = K) with
        | [] => []
        | f :: r =>
          [{ f with
              affected_devices := r.foldl (fun ds j => pushUnique ds j.device) [f.device] }] := by
    intro n
    induction n using Nat.strong_induction_on with
    | _ n ih =>
      intro l hl K
      match l with
      | [] => rw [dedupRef_nil]; rfl
      | i :: rest =>
        have hlen : (rest.filter (fun j => ¬ dedupKey j = dedupKey i)).length < n := by
          have := List.length_filter_le (fun j => ¬ dedupKey j = dedupKey i) rest
          simp only [List.length_cons] at hl
          omega
        rw [dedupRef_cons]
        by_cases hK : dedupKey i = K
        · have hhead : dedupKey
              (accrete { i with affected_devices := [i.device] }
                (rest.filter (fun j => dedupKey j = dedupKey i))) = K := by
            rw [dedupKey_accrete, dedupKey_set_affected, hK]
          rw [List.filter_cons_of_pos (by simpa using hhead)]
          have htail :
              (dedupRef (rest.filter (fun j => ¬ dedupKey j = dedupKey i))).filter
                  (fun j => dedupKey j = K) = [] := by
            rw [List.filter_eq_nil_iff]
            intro j hj
            have := dedupRef_key_mem _ j hj
            rcases List.mem_map.mp this with ⟨x, hx, hxe⟩
            have hxne : ¬ dedupKey x = dedupKey i := by
              have := (List.mem_filter.mp hx).2
              simpa using this
            simp only [decide_eq_true_eq]
            rw [← hxe, ← hK]
            exact hxne
          rw [htail]
          rw [List.filter_cons_of_pos (by simpa using hK)]
          have hgrp : rest.filter (fun j => dedupKey j = dedupKey i) =
              rest.filter (fun j => dedupKey j = K) := by
            rw [hK]
          rw [hgrp]
          rfl
        · have hhead : ¬ dedupKey
              (accrete { i with affected_devices := [i.device] }
                (rest.filter (fun j => dedupKey j = dedupKey i))) = K := by
            rw [dedupKey_accrete, dedupKey_set_affected]
            exact hK
          rw [List.filter_cons_of_neg (by simpa using hhead)]
          rw [ih _ hlen _ rfl K]
          have hff : (rest.filter (fun j => ¬ dedupKey j = dedupKey i)).filter
              (fun j => dedupKey j = K) = rest.filter (fun j => dedupKey j = K) := by
            rw [List.filter_filter]
            apply List.filter_congr
            intro x _
            by_cases h : dedupKey x = K
            · have hxi : ¬ dedupKey x = dedupKey i := by rw [h]; exact fun hc => hK hc.symm
              have hKi : ¬ K = dedupKey i := fun hc => hK hc.symm
              simp [h, hxi, hKi]
            · simp [h]
          rw [hff, List.filter_cons_of_neg (by simpa using hK)]
  intro l K
  exact H l.length l rfl K

/-- Every output record of the reference recursion is the first input
occurrence of its key, with only affected_devices rewritten. -/
theorem dedupRef_first_occurrence :
    ∀ (l : List Issue) (j : Issue), j ∈ dedupRef l →
      ∃ f, l.find? (fun i => dedupKey i = dedupKey j) = some f ∧
        j = { f with affected_devices := j.affected_devices } := by
  have H : ∀ n (l : List Issue), l.length = n → ∀ j ∈ dedupRef l,
      ∃ f, l.find? (fun i => dedupKey i = dedupKey j) = some f ∧
        j = { f with affected_devices := j.affected_devices } := by
    intro n
    induction n using Nat.strong_induction_on with
    | _ n ih =>
      intro l hl j hj
      match l with
      | [] => rw [dedupRef_nil] at hj; simp at hj
      | i :: rest =>
        have hlen : (rest.filter (fun j => ¬ dedupKey j = dedupKey i)).length < n := by
          have := List.length_filter_le (fun j => ¬ dedupKey j = dedupKey i) rest
          simp only [List.length_cons] at hl
          omega
        rw [dedupRef_cons] at hj
        rcases List.mem_cons.mp hj with h | h
        · refine ⟨i, ?_, ?_⟩
          · have hkey : dedupKey i = dedupKey j := by rw [h]; rfl
            exact List.find?_cons_of_pos _ (by simpa using hkey)
          · rw [h]
            rfl
        · rcases ih _ hlen _ rfl j h with ⟨f, hf, hjf⟩
          have hkeyj : dedupKey j = dedupKey f := by
            rw [hjf, dedupKey_set_affected]
          have hfmem : f ∈ rest.filter (fun j => ¬ dedupKey j = dedupKey i) :=
            List.mem_of_find?_eq_some hf
          have hfne : ¬ dedupKey f = dedupKey i := by
            have := (List.mem_filter.mp hfmem).2
            simpa using this
          refine ⟨f, ?_, hjf⟩
          have hine : ¬ dedupKey i = dedupKey j := by
            rw [hkeyj]
            exact fun hc => hfne hc.symm
          rw [List.find?_cons_of_neg _ (by simpa using hine)]
          exact find?_filter_of_imp _ _ rest
            (by
              intro x hx
              simp only [decide_eq_true_eq] at hx ⊢
              rw [hx, hkeyj]
              exact hfne) f hf
  intro l j hj
  exact H l.length l rfl j hj

/-- First-occurrence order of a key list: each key in order of its first
appearance. -/
def uniqueKeys : List String → List String
  | [] => []
  | k :: ks => k :: uniqueKeys (ks.filter (fun x => ¬ x = k))
  termination_by l => l.length
  decreasing_by
    simp only [List.length_cons]
    exact Nat.lt_succ_of_le (List.length_filter_le _ _)

theorem uniqueKeys_nil : uniqueKeys [] = [] := by rw [uniqueKeys.eq_def]

theorem uniqueKeys_cons (k : String) (ks : List String) :
    uniqueKeys (k :: ks) = k :: uniqueKeys (ks.filter (fun x => ¬ x = k)) := by
  rw [uniqueKeys.eq_def]

/-- The reference recursion emits canonical records in first-occurrence key
order. -/
theorem dedupRef_map_key :
    ∀ l : List Issue, (dedupRef l).map dedupKey = uniqueKeys (l.map dedupKey) := by
  have H : ∀ n (l : List Issue), l.length = n →
      (dedupRef l).map dedupKey = uniqueKeys (l.map dedupKey) := by
    intro n
    induction n using Nat.strong_induction_on with
    | _ n ih =>
      intro l hl
      match l with
      | [] => rw [dedupRef_nil, List.map_nil, uniqueKeys_nil]
      | i :: rest =>
        have hlen : (rest.filter (fun j => ¬ dedupKey j = dedupKey i)).length < n := by
          have := List.length_filter_le (fun j => ¬ dedupKey j = dedupKey i) rest
          simp only [List.length_cons] at hl
          omega
        rw [dedupRef_cons, List.map_cons, List.map_cons, uniqueKeys_cons]
        have hhead : dedupKey
            (accrete { i with affected_devices := [i.device] }
              (rest.filter (fun j => dedupKey j = dedupKey i))) = dedupKey i := rfl
        rw [hhead, ih _ hlen _ rfl]
        have hmf : (rest.filter (fun j => ¬ dedupKey j = dedupKey i)).map dedupKey =
            (rest.map dedupKey).filter (fun x => ¬ x = dedupKey i) :=
          map_filter_through dedupKey (fun x => ¬ x = dedupKey i) rest
        rw [hmf]
  intro l
  exact H l.length l rfl

/- ### pushUnique facts -/

theorem pushUnique_nodup (acc : List String) (hnd : acc.Nodup) (d : String) :
    (pushUnique acc d).Nodup := by
  rw [pushUnique]
  by_cases h : d ∈ acc
  · rw [if_pos h]; exact hnd
  · rw [if_neg h, List.nodup_append]
    exact ⟨hnd, List.nodup_singleton _, by simpa [List.disjoint_singleton] using h⟩

theorem foldl_pushUnique_nodup (l : List String) :
    ∀ acc : List String, acc.Nodup → (l.foldl pushUnique acc).Nodup := by
  induction l with
  | nil => intro acc h; exact h
  | cons x xs ih =>
    intro acc h
    rw [List.foldl_cons]
    exact ih _ (pushUnique_nodup acc h x)

/-- When the accumulated and incoming labels are jointly duplicate-free,
the set-semantics fold is a plain append. -/
theorem foldl_pushUnique_of_nodup (l : List String) :
    ∀ acc : List String, (acc ++ l).Nodup → l.foldl pushUnique acc = acc ++ l := by
  induction l with
  | nil => intro acc _; simp
  | cons x xs ih =>
    intro acc h
    have hx : ¬ x ∈ acc := by
      rw [List.nodup_append] at h
      intro hc
      exact h.2.2 hc (List.mem_cons_self x xs)
    rw [List.foldl_cons, pushUnique, if_neg hx]
    have h2 : ((acc ++ [x]) ++ xs).Nodup := by
      have : acc ++ x :: xs = (acc ++ [x]) ++ xs := by simp
      rw [← this]
      exact h
    rw [ih _ h2]
    simp

/- ### checkPage loop characterization -/

/-- statusOf only produces the three detector statuses. -/
theorem statusOf_cases (issues : List Issue) :
    statusOf issues = "failed" ∨ statusOf issues = "warning" ∨ statusOf issues = "passed" := by
  rw [statusOf]
  by_cases h1 : issues.any (fun i => i.severity = Severity.critical) = true
  · rw [if_pos h1]; left; rfl
  · rw [if_neg h1]
    by_cases h2 : issues.any (fun i => i.severity = Severity.warning) = true
    · rw [if_pos h2]; right; left; rfl
    · rw [if_neg h2]; right; right; rfl

/-- Full characterization of checkPage's tuple loop: one record per tuple
in order, all tagged issues concatenated in order, and the four counters as
counts over the detector-derived tuple statuses. -/
theorem foldl_processTuple_eq (f : String → String → Device → TupleOutcome)
    (ts : List (String × String × Device)) :
    ∀ st : CheckPageState,
      ts.foldl (processTuple f) st =
        { checks := st.checks ++ ts.map (recordFor f)
          allIssues := st.allIssues ++ ts.flatMap (issuesFor f)
          total := st.total + ts.countP (fun t => ¬ tupleStatus f t = "error")
          passed := st.passed + ts.countP (fun t => tupleStatus f t = "passed")
          failed := st.failed +
            ts.countP (fun t => tupleStatus f t = "error" ∨ tupleStatus f t = "failed")
          warnings := st.warnings + ts.countP (fun t => tupleStatus f t = "warning") } := by
  induction ts with
  | nil => intro st; simp
  | cons t ts ih =>
    intro st
    rw [List.foldl_cons, ih]
    cases h : f t.1 t.2.1 t.2.2 with
    | err msg =>
      have hts : tupleStatus f t = "error" := by rw [tupleStatus, h]
      simp only [processTuple, h, List.map_cons, List.flatMap_cons, List.countP_cons,
        issuesFor, hts]
      simp only [CheckPageState.mk.injEq]
      refine ⟨?_, ?_, ?_, ?_, ?_, ?_⟩ <;> (simp; try omega)
    | ok issues len =>
      have hts : tupleStatus f t = statusOf (tagDark t.1 issues) := by rw [tupleStatus, h]
      rcases statusOf_cases (tagDark t.1 issues) with hs | hs | hs <;>
        · simp only [processTuple, h, List.map_cons, List.flatMap_cons, List.countP_cons,
            issuesFor, hts, hs]
          simp only [CheckPageState.mk.injEq]
          refine ⟨?_, ?_, ?_, ?_, ?_, ?_⟩ <;> simp [hs] <;> omega
/- ### Detector field lemmas -/

theorem checkHorizontalScroll_fields (page : PageSnapshot) (device : Device) (i : Issue)
    (h : checkHorizontalScroll page device = some i) :
    i.blocks_release = true ∧ i.severity = Severity.critical ∧ i.type = IssueType.layout ∧
      i.id = "horizontal-scroll-" ++ device.id := by
  rw [checkHorizontalScroll] at h
  split at h
  · simp only [Option.some.injEq] at h
    subst h
    exact ⟨rfl, rfl, rfl, rfl⟩
  · simp at h

theorem mem_checkOverflow_fields (page : PageSnapshot) (device : Device) :
    ∀ i ∈ checkOverflow page device,
      i.blocks_release = true ∧ i.severity = Severity.critical ∧ i.type = IssueType.layout ∧
        ∃ tag, i.id = "overflow-" ++ tag ++ "-" ++ device.id := by
  intro i hi
  rw [checkOverflow] at hi
  rcases List.mem_map.mp hi with ⟨x, _, rfl⟩
  exact ⟨rfl, rfl, rfl, x.tag, rfl⟩

theorem mem_checkTouchTargets_fields (std : Standards) (page : PageSnapshot) (device : Device) :
    ∀ i ∈ checkTouchTargets std page device,
      i.blocks_release = false ∧ i.severity = Severity.warning ∧
        i.type = IssueType.accessibility ∧
        ∃ s, i.element = some ⟨s⟩ ∧ i.id = "touch-target-" ++ s ++ "-" ++ device.id := by
  intro i hi
  rw [checkTouchTargets] at hi
  rcases List.mem_map.mp hi with ⟨x, _, rfl⟩
  exact ⟨rfl, rfl, rfl, x.selector, rfl, rfl⟩

theorem mem_checkContrast_fields (g : ℚ → ℚ) (page : PageSnapshot) (device : Device) :
    ∀ i ∈ checkContrast g page device,
      i.blocks_release = false ∧ i.severity = Severity.warning ∧
        i.type = IssueType.accessibility ∧
        ∃ s, i.element = some ⟨s⟩ ∧ i.id = "contrast-" ++ s ++ "-" ++ device.id := by
  intro i hi
  rw [checkContrast] at hi
  rcases List.mem_map.mp hi with ⟨x, _, rfl⟩
  exact ⟨rfl, rfl, rfl, x.selector, rfl, rfl⟩

theorem mem_checkFontSize_fields (std : Standards) (page : PageSnapshot) (device : Device) :
    ∀ i ∈ checkFontSize std page device,
      i.blocks_release = false ∧ i.severity = Severity.warning ∧
        i.type = IssueType.typography ∧
        ∃ s, i.element = some ⟨s⟩ ∧ i.id = "font-size-" ++ s ++ "-" ++ device.id := by
  intro i hi
  rw [checkFontSize] at hi
  rcases List.mem_map.mp hi with ⟨x, _, rfl⟩
  exact ⟨rfl, rfl, rfl, x.selector, rfl, rfl⟩

theorem mem_checkImageAlt_fields (page : PageSnapshot) (device : Device) :
    ∀ i ∈ checkImageAlt page device,
      i.blocks_release = true ∧ i.severity = Severity.critical ∧
        i.type = IssueType.accessibility ∧ i.id = "img-alt-" ++ device.id := by
  intro i hi
  rw [checkImageAlt] at hi
  rcases List.mem_map.mp hi with ⟨x, _, rfl⟩
  exact ⟨rfl, rfl, rfl, rfl⟩

/-- Membership in detectIssues comes from one of the seven checks. -/
theorem mem_detectIssues (g : ℚ → ℚ) (std : Standards) (page : PageSnapshot) (device : Device) :
    ∀ i ∈ detectIssues g std page device,
      checkHorizontalScroll page device = some i ∨
        i ∈ checkOverflow page device ∨
        i ∈ checkTouchTargets std page device ∨
        i ∈ checkContrast g page device ∨
        i ∈ checkFontSize std page device ∨
        i ∈ checkImageAlt page device := by
  intro i hi
  rw [detectIssues, prioritizeIssues] at hi
  have hi2 := (List.perm_insertionSort (fun a b => prioRank a ≤ prioRank b) _).mem_iff.mp hi
  simp only [List.mem_append, checkOverlap, List.not_mem_nil, or_false] at hi2
  rcases hi2 with ((((h | h) | h) | h) | h) | h
  · left
    rcases Option.mem_toList.mp h with h2
    exact h2.symm ▸ rfl
  · exact Or.inr (Or.inl h)
  · right; right; left
    by_cases hc : device.is_mobile = true ∨ device.has_touch = true
    · rwa [if_pos hc] at h
    · rw [if_neg hc] at h
      exact absurd h (List.not_mem_nil i)
  · exact Or.inr (Or.inr (Or.inr (Or.inl h)))
  · exact Or.inr (Or.inr (Or.inr (Or.inr (Or.inl h))))
  · exact Or.inr (Or.inr (Or.inr (Or.inr (Or.inr h))))

/-- Every issue the detector produces is blocking exactly when it is
critical. -/
theorem detectIssues_blocks_iff_critical (g : ℚ → ℚ) (std : Standards) (page : PageSnapshot)
    (device : Device) :
    ∀ i ∈ detectIssues g std page device,
      (i.blocks_release = true ↔ i.severity = Severity.critical) := by
  intro i hi
  rcases mem_detectIssues g std page device i hi with h | h | h | h | h | h
  · rcases checkHorizontalScroll_fields page device i h with ⟨h1, h2, _⟩
    rw [h1, h2]; simp
  · rcases mem_checkOverflow_fields page device i h with ⟨h1, h2, _⟩
    rw [h1, h2]; simp
  · rcases mem_checkTouchTargets_fields std page device i h with ⟨h1, h2, _⟩
    rw [h1, h2]; simp
  · rcases mem_checkContrast_fields g page device i h with ⟨h1, h2, _⟩
    rw [h1, h2]; simp
  · rcases mem_checkFontSize_fields std page device i h with ⟨h1, h2, _⟩
    rw [h1, h2]; simp
  · rcases mem_checkImageAlt_fields page device i h with ⟨h1, h2, _⟩
    rw [h1, h2]; simp

/-- Middle-cancellation for string concatenation. -/
theorem string_append_middle_cancel (p s1 s2 t : String)
    (h : p ++ s1 ++ t = p ++ s2 ++ t) : s1 = s2 := by
  have hd : (p.data ++ s1.data) ++ t.data = (p.data ++ s2.data) ++ t.data := by
    have h2 := congrArg String.data h
    simpa [String.data_append] using h2
  have h3 : p.data ++ s1.data = p.data ++ s2.data := List.append_cancel_right hd
  have h4 : s1.data = s2.data := List.append_cancel_left h3
  cases s1
  cases s2
  simp only at h4
  rw [h4]

/-- The tuple matrix has exactly one entry per (scheme, browser, device). -/
theorem tupleList_length (colorSchemes browsers : List String) (devices : List Device) :
    (tupleList colorSchemes browsers devices).length =
      colorSchemes.length * browsers.length * devices.length := by
  have hb : ∀ c : String,
      (browsers.flatMap (fun b => devices.map (fun d => (c, b, d)))).length =
        browsers.length * devices.length := by
    intro c
    induction browsers with
    | nil => simp
    | cons b bs ihb =>
      simp only [List.flatMap_cons, List.length_append, List.length_map, ihb,
        List.length_cons]
      ring
  induction colorSchemes with
  | nil => simp [tupleList]
  | cons c cs ih =>
    simp only [tupleList, List.flatMap_cons, List.length_append, List.length_cons] at *
    rw [ih, hb c]
    ring

/-- Device-label folds factor through the label projection. -/
theorem foldl_pushUnique_device (l : List Issue) :
    ∀ acc : List String,
      l.foldl (fun ds j => pushUnique ds j.device) acc =
        (l.map (fun j => j.device)).foldl pushUnique acc := by
  induction l with
  | nil => intro acc; rfl
  | cons x xs ih => intro acc; simp [List.foldl_cons, ih]

/-- Post-dedup affected_devices lists are always duplicate-free. -/
theorem dedupRef_affected_nodup :
    ∀ (l : List Issue) (j : Issue), j ∈ dedupRef l → j.affected_devices.Nodup := by
  have H : ∀ n (l : List Issue), l.length = n → ∀ j ∈ dedupRef l, j.affected_devices.Nodup := by
    intro n
    induction n using Nat.strong_induction_on with
    | _ n ih =>
      intro l hl j hj
      match l with
      | [] => rw [dedupRef_nil] at hj; simp at hj
      | i :: rest =>
        have hlen : (rest.filter (fun j => ¬ dedupKey j = dedupKey i)).length < n := by
          have := List.length_filter_le (fun j => ¬ dedupKey j = dedupKey i) rest
          simp only [List.length_cons] at hl
          omega
        rw [dedupRef_cons] at hj
        rcases List.mem_cons.mp hj with h | h
        · rw [h]
          show ((rest.filter (fun j => dedupKey j = dedupKey i)).foldl
            (fun ds j => pushUnique ds j.device) [i.device]).Nodup
          rw [foldl_pushUnique_device]
          exact foldl_pushUnique_nodup _ _ (List.nodup_singleton _)
        · exact ih _ hlen _ rfl j h
  intro l j hj
  exact H l.length l rfl j hj

/-- C1: deduplicateIssues groups issues by the (type, selector-or-title)
key: when a key has k occurrences originating from k distinct devices, the
output carries exactly one issue for that key, whose fields are the first
occurrence's and whose affected_devices is exactly the k distinct device
labels; moreover affected_devices is always duplicate-free, even when the
same device occurs several times in the input. -/
theorem C1_deduplicateIssues_groups (issues : List Issue) (K : String) (k : Nat) :
    (((issues.filter (fun i => dedupKey i = K)).length = k ∧ 0 < k ∧
        ((issues.filter (fun i => dedupKey i = K)).map (fun i => i.device)).Nodup) →
      ∃ first rest, issues.filter (fun i => dedupKey i = K) = first :: rest ∧
        (deduplicateIssues issues).filter (fun j => dedupKey j = K) =
          [{ first with
              affected_devices := first.device :: rest.map (fun i => i.device) }] ∧
        (first.device :: rest.map (fun i => i.device)).length = k ∧
        (first.device :: rest.map (fun i => i.device)).Nodup) ∧
    ∀ j ∈ deduplicateIssues issues, j.affected_devices.Nodup := by
  constructor
  · rintro ⟨hk, hpos, hnd⟩
    cases hf : issues.filter (fun i => dedupKey i = K) with
    | nil =>
      rw [hf] at hk
      simp at hk
      omega
    | cons first rest =>
      rw [hf] at hk hnd
      refine ⟨first, rest, rfl, ?_, ?_, ?_⟩
      · rw [deduplicateIssues_eq_dedupRef, dedupRef_filter_key_eq, hf]
        show [{ first with
            affected_devices :=
              rest.foldl (fun (ds : List String) (j : Issue) => pushUnique ds j.device)
                [first.device] }] =
          [{ first with
              affected_devices := first.device :: rest.map (fun (i : Issue) => i.device) }]
        have hfold :
            rest.foldl (fun ds j => pushUnique ds j.device) [first.device] =
              first.device :: rest.map (fun i => i.device) := by
          rw [foldl_pushUnique_device]
          have hnd2 : ([first.device] ++ rest.map (fun i => i.device)).Nodup := by
            simpa using hnd
          rw [foldl_pushUnique_of_nodup _ _ hnd2]
          simp
        rw [hfold]
      · simpa using hk
      · simpa using hnd
  · intro j hj
    rw [deduplicateIssues_eq_dedupRef] at hj
    exact dedupRef_affected_nodup issues j hj

/-- C10: deduplicateIssues is order-preserving on canonical records: the
output keys appear in the order of their first occurrence in the input,
and every output record is the first input occurrence of its key (in
particular its device field is that first occurrence's device), with only
affected_devices rewritten. -/
theorem C10_deduplicateIssues_order (issues : List Issue) :
    (deduplicateIssues issues).map dedupKey = uniqueKeys (issues.map dedupKey) ∧
    ∀ j ∈ deduplicateIssues issues, ∃ f,
      issues.find? (fun i => dedupKey i = dedupKey j) = some f ∧
      j.device = f.device ∧ j = { f with affected_devices := j.affected_devices } := by
  constructor
  · rw [deduplicateIssues_eq_dedupRef]
    exact dedupRef_map_key issues
  · intro j hj
    rw [deduplicateIssues_eq_dedupRef] at hj
    rcases dedupRef_first_occurrence issues j hj with ⟨f, hf, hjf⟩
    refine ⟨f, hf, ?_, hjf⟩
    rw [hjf]

/- ### checkPage claims -/

/-- The detector issues a tuple outcome carries. -/
def outcomeIssues : TupleOutcome → List Issue
  | TupleOutcome.ok issues _ => issues
  | TupleOutcome.err _ => []

/-- Closed form of checkPage in terms of the per-tuple record/issue/status
functions. -/
theorem checkPage_eq (colorSchemes browsers : List String) (devices : List Device)
    (f : String → String → Device → TupleOutcome) :
    checkPage colorSchemes browsers devices f =
      { checks := (tupleList colorSchemes browsers devices).map (recordFor f)
        issues :=
          deduplicateIssues ((tupleList colorSchemes browsers devices).flatMap (issuesFor f))
        summary :=
          { total :=
              (tupleList colorSchemes browsers devices).countP
                (fun t => ¬ tupleStatus f t = "error")
            passed :=
              (tupleList colorSchemes browsers devices).countP
                (fun t => tupleStatus f t = "passed")
            failed :=
              (tupleList colorSchemes browsers devices).countP
                (fun t => tupleStatus f t = "error" ∨ tupleStatus f t = "failed")
            warnings :=
              (tupleList colorSchemes browsers devices).countP
                (fun t => tupleStatus f t = "warning")
            blocks_release :=
              (deduplicateIssues
                  ((tupleList colorSchemes browsers devices).flatMap (issuesFor f))).any
                (fun i => i.blocks_release) }
        action_summary :=
          generateSummaryForAgent
            (deduplicateIssues
              ((tupleList colorSchemes browsers devices).flatMap (issuesFor f))) } := by
  rw [checkPage, foldl_processTuple_eq]
  simp [initState]

/-- Dark-mode tagging changes only the title and colorScheme fields. -/
theorem mem_tagDark_fields (cs : String) (issues : List Issue) :
    ∀ i ∈ tagDark cs issues, ∃ o ∈ issues,
      i.severity = o.severity ∧ i.blocks_release = o.blocks_release := by
  intro i hi
  rw [tagDark] at hi
  split at hi
  · rcases List.mem_map.mp hi with ⟨o, ho, rfl⟩
    exact ⟨o, ho, rfl, rfl⟩
  · exact ⟨i, hi, rfl, rfl⟩

/-- C2: checkPage's summary.blocks_release is true exactly when some issue
of the deduplicated list has blocks_release; and — since the detector only
marks critical issues blocking (hypothesis hbc, proven for detectIssues in
detectIssues_blocks_iff_critical) — a result with zero critical issues has
blocks_release false no matter how many warnings it contains. -/
theorem C2_blocks_release_iff (colorSchemes browsers : List String) (devices : List Device)
    (f : String → String → Device → TupleOutcome)
    (hbc : ∀ cs b d, ∀ i ∈ outcomeIssues (f cs b d),
      i.blocks_release = true → i.severity = Severity.critical) :
    ((checkPage colorSchemes browsers devices f).summary.blocks_release = true ↔
      ∃ i ∈ (checkPage colorSchemes browsers devices f).issues, i.blocks_release = true) ∧
    ((∀ i ∈ (checkPage colorSchemes browsers devices f).issues,
        ¬ i.severity = Severity.critical) →
      (checkPage colorSchemes browsers devices f).summary.blocks_release = false) := by
  rw [checkPage_eq]
  constructor
  · simp [List.any_eq_true]
  · intro hnc
    simp only [List.any_eq_false]
    intro j hj
    simp only [decide_eq_true_eq] at hnc ⊢
    intro hblocks
    rw [deduplicateIssues_eq_dedupRef] at hj
    rcases dedupRef_first_occurrence _ j hj with ⟨fst, hfind, hjf⟩
    have hfmem : fst ∈ (tupleList colorSchemes browsers devices).flatMap (issuesFor f) :=
      List.mem_of_find?_eq_some hfind
    rcases List.mem_flatMap.mp hfmem with ⟨t, _, hft⟩
    have hfi : fst ∈ issuesFor f t := hft
    rw [issuesFor] at hfi
    have hcrit : fst.severity = Severity.critical := by
      cases hout : f t.1 t.2.1 t.2.2 with
      | err m => rw [hout] at hfi; simp at hfi
      | ok issues len =>
        rw [hout] at hfi
        rcases mem_tagDark_fields t.1 issues fst hfi with ⟨o, ho, hsev, hblk⟩
        have hob : o.blocks_release = true := by
          rw [← hblk, ← show j.blocks_release = fst.blocks_release from by rw [hjf]]
          exact hblocks
        have := hbc t.1 t.2.1 t.2.2 o (by rw [hout]; exact ho)
        rw [hsev]
        exact this hob
    have hjs : j.severity = Severity.critical := by
      rw [hjf]
      exact hcrit
    exact absurd hjs (hnc j (by rwa [deduplicateIssues_eq_dedupRef]))

/-- runChecks never yields the error status. -/
theorem runChecksStatus_ne_error (metaViewport : Option Viewport) (device : Device) :
    ¬ runChecksStatus metaViewport device = "error" := by
  rw [runChecksStatus]
  split
  · intro h
    exact absurd h (by decide)
  · intro h
    exact absurd h (by decide)

/-- C3: checkPage is total over the resolved matrix: the records are
exactly one per tuple, in matrix order; a tuple whose processing throws is
caught and recorded with status 'error' and its message, and a successful
tuple is never recorded as an error — so failures do not abort the
remaining tuples. -/
theorem C3_checkPage_total (colorSchemes browsers : List String) (devices : List Device)
    (f : String → String → Device → TupleOutcome) :
    (checkPage colorSchemes browsers devices f).checks.length =
      colorSchemes.length * browsers.length * devices.length ∧
    (checkPage colorSchemes browsers devices f).checks =
      (tupleList colorSchemes browsers devices).map (recordFor f) ∧
    (∀ t ∈ tupleList colorSchemes browsers devices, ∀ msg,
      f t.1 t.2.1 t.2.2 = TupleOutcome.err msg →
        recordFor f t =
          { device := darkLabel t.1 t.2.2
            device_id := t.2.2.id
            browser := t.2.1
            colorScheme := t.1
            status := "error"
            error := some msg }) ∧
    (∀ t ∈ tupleList colorSchemes browsers devices, ∀ issues len,
      f t.1 t.2.1 t.2.2 = TupleOutcome.ok issues len →
        ¬ (recordFor f t).status = "error" ∧ (recordFor f t).error = none) := by
  refine ⟨?_, ?_, ?_, ?_⟩
  · rw [checkPage_eq]
    simp [tupleList_length]
  · rw [checkPage_eq]
  · intro t _ msg hmsg
    rw [recordFor, hmsg]
  · intro t _ issues len hok
    rw [recordFor, hok]
    exact ⟨runChecksStatus_ne_error _ _, rfl⟩

/-- The detector-derived tuple status takes one of four values. -/
theorem tupleStatus_cases (f : String → String → Device → TupleOutcome)
    (t : String × String × Device) :
    tupleStatus f t = "error" ∨ tupleStatus f t = "failed" ∨
      tupleStatus f t = "warning" ∨ tupleStatus f t = "passed" := by
  rw [tupleStatus]
  cases f t.1 t.2.1 t.2.2 with
  | err m => left; rfl
  | ok issues len => right; exact statusOf_cases _

/-- Each tuple is counted exactly once by passed/failed-or-error/warning,
and once by non-error/error. -/
theorem countP_status_split (f : String → String → Device → TupleOutcome)
    (ts : List (String × String × Device)) :
    ts.countP (fun t => tupleStatus f t = "passed") +
        ts.countP (fun t => tupleStatus f t = "error" ∨ tupleStatus f t = "failed") +
        ts.countP (fun t => tupleStatus f t = "warning") =
      ts.countP (fun t => ¬ tupleStatus f t = "error") +
        ts.countP (fun t => tupleStatus f t = "error") := by
  induction ts with
  | nil => rfl
  | cons t ts ih =>
    rcases tupleStatus_cases f t with h | h | h | h <;>
      · simp only [List.countP_cons, h]
        simp
        simp at ih
        omega

/-- C9: an errored tuple bumps summary.failed but not summary.total:
total counts exactly the non-error tuples, failed counts errors plus
detector-failed tuples, the three buckets sum to total + #errors, and the
aggregation invariant total = passed + failed + warnings is violated as
soon as one tuple errors. -/
theorem C9_total_excludes_errors (colorSchemes browsers : List String) (devices : List Device)
    (f : String → String → Device → TupleOutcome) :
    (checkPage colorSchemes browsers devices f).summary.total =
      (tupleList colorSchemes browsers devices).countP
        (fun t => ¬ tupleStatus f t = "error") ∧
    (checkPage colorSchemes browsers devices f).summary.failed =
      (tupleList colorSchemes browsers devices).countP
        (fun t => tupleStatus f t = "error" ∨ tupleStatus f t = "failed") ∧
    (checkPage colorSchemes browsers devices f).summary.passed +
        (checkPage colorSchemes browsers devices f).summary.failed +
        (checkPage colorSchemes browsers devices f).summary.warnings =
      (checkPage colorSchemes browsers devices f).summary.total +
        (tupleList colorSchemes browsers devices).countP
          (fun t => tupleStatus f t = "error") ∧
    (0 < (tupleList colorSchemes browsers devices).countP
        (fun t => tupleStatus f t = "error") →
      ¬ (checkPage colorSchemes browsers devices f).summary.total =
          (checkPage colorSchemes browsers devices f).summary.passed +
            (checkPage colorSchemes browsers devices f).summary.failed +
            (checkPage colorSchemes browsers devices f).summary.warnings) := by
  have hsum := countP_status_split f (tupleList colorSchemes browsers devices)
  rw [checkPage_eq]
  refine ⟨rfl, rfl, by simpa using hsum, ?_⟩
  intro hpos
  simp only []
  omega

/- ### PixelComparator claims -/

/-- C4: two successfully decoded images with differing width or height
always terminate in the sizeMismatch outcome carrying both dimension pairs
— a result shape with no diffPixels, diffPercent or matched data — and no
diff raster is written: the comparison is never partial or cropped. -/
theorem C4_compare_sizeMismatch (cfg : PixelCfg) (i1 i2 : Image)
    (outputDiffPath : Option String)
    (h : ¬ i1.width = i2.width ∨ ¬ i1.height = i2.height) :
    compare cfg (some i1) (some i2) outputDiffPath =
      CompareOutcome.sizeMismatch (i1.width, i1.height) (i2.width, i2.height)
        ("Размеры изображений различаются: " ++ toString i1.width ++ "x" ++
          toString i1.height ++ " vs " ++ toString i2.width ++ "x" ++ toString i2.height) ∧
    compareWritesDiff cfg (some i1) (some i2) outputDiffPath = false := by
  constructor
  · simp only [compare]
    rw [if_pos h]
  · simp only [compareWritesDiff]
    rw [if_pos h]

theorem pixelDelta_self (p : Rgba) : pixelDelta p p = 0 := by
  simp [pixelDelta]

/-- Identical buffers contain no differing pixel for any nonnegative
threshold. -/
theorem pixelmatchCount_self (cfg : PixelCfg) (hth : 0 ≤ cfg.threshold) (d : List Rgba) :
    pixelmatchCount cfg d d = 0 := by
  rw [pixelmatchCount, List.countP_eq_zero]
  have hzip : ∀ pq ∈ d.zip d, pq.1 = pq.2 := by
    induction d with
    | nil => intro pq hpq; simp at hpq
    | cons x xs ih =>
      intro pq hpq
      rw [List.zip_cons_cons] at hpq
      rcases List.mem_cons.mp hpq with h | h
      · rw [h]
      · exact ih pq h
  intro pq hpq
  rw [hzip pq hpq]
  simp only [decide_eq_true_eq, pixelDelta_self]
  exact fun hc => absurd hth (not_le.mpr hc)

/-- C8: comparing a decoded image with itself (under any nonnegative
sensitivity threshold, such as the 0.1 default) yields matched = true with
zero differing pixels and zero percent, reports no diff raster path, and
writes no diff file regardless of the requested output path. -/
theorem C8_compare_identity (cfg : PixelCfg) (img : Image) (outputDiffPath : Option String)
    (hth : 0 ≤ cfg.threshold) :
    compare cfg (some img) (some img) outputDiffPath =
      CompareOutcome.ok true 0 (img.width * img.height) 0 (img.width, img.height) none ∧
    compareWritesDiff cfg (some img) (some img) outputDiffPath = false := by
  have hcnt := pixelmatchCount_self cfg hth img.data
  constructor
  · simp only [compare]
    rw [if_neg (by simp)]
    simp only [hcnt]
    have hpct : roundTo4 (((0 : Nat) : ℚ) / ((img.width * img.height : Nat) : ℚ) * 100) = 0 := by
      rw [roundTo4]
      norm_num
    rw [hpct]
    simp
  · simp only [compareWritesDiff]
    rw [if_neg (by simp)]
    simp [hcnt]

/- ### Contrast claim -/

/-- The contrast push-if scan loop is filterMap. -/
theorem lowContrastFold_eq (g : ℚ → ℚ) (els : List TextEl) :
    ∀ acc : List ContrastFinding,
      els.foldl
        (fun results el =>
          match contrastHit g el with
          | some f => results ++ [f]
          | none => results) acc =
        acc ++ els.filterMap (contrastHit g) := by
  induction els with
  | nil => intro acc; simp
  | cons x xs ih =>
    intro acc
    rw [List.foldl_cons]
    cases h : contrastHit g x with
    | none => simp only [h]; rw [ih]; simp [List.filterMap_cons, h]
    | some y => simp only [h]; rw [ih]; simp [List.filterMap_cons, h]

/-- The contrast scan is the capped filterMap of its per-element hit. -/
theorem lowContrastElements_eq (g : ℚ → ℚ) (els : List TextEl) :
    lowContrastElements g els = (els.filterMap (contrastHit g)).take 5 := by
  rw [lowContrastElements, lowContrastFold_eq]
  simp

/-- Unfolding of a successful contrast hit: parsed colors, non-transparent
background, ratio strictly between 1 and 4.5. -/
theorem contrastHit_some (g : ℚ → ℚ) (el : TextEl) (fnd : ContrastFinding)
    (h : contrastHit g el = some fnd) :
    ∃ c bg, el.color = some c ∧ el.bgColor = some bg ∧ 0 < bg.r + bg.g + bg.b ∧
      1 < contrastRatioVal g c bg ∧ contrastRatioVal g c bg < 4.5 ∧
      fnd.selector = selectorOf el.idAttr el.className el.tag := by
  rw [contrastHit] at h
  cases hc : el.color with
  | none => rw [hc] at h; simp at h
  | some c =>
    cases hbg : el.bgColor with
    | none => rw [hc, hbg] at h; simp at h
    | some bg =>
      rw [hc, hbg] at h
      simp only [] at h
      split at h
      · split at h
        · rename_i hsum hratio
          simp only [Option.some.injEq] at h
          subst h
          exact ⟨c, bg, rfl, rfl, hsum, hratio.2, hratio.1, rfl⟩
        · simp at h
      · simp at h

/-- A foreground/background pair at contrast ratio exactly 4.5 is never
pushed by the scan. -/
theorem contrastHit_at_boundary (g : ℚ → ℚ) (el : TextEl) (c bg : Rgb)
    (hc : el.color = some c) (hbg : el.bgColor = some bg)
    (hr : contrastRatioVal g c bg = 4.5) : contrastHit g el = none := by
  rw [contrastHit, hc, hbg]
  simp only []
  split
  · rw [if_neg]
    rintro ⟨h1, _⟩
    rw [hr] at h1
    exact absurd h1 (lt_irrefl _)
  · rfl

/-- C5: checkContrast reports at most five issues; every reported issue
comes from a text element with parsed foreground and background colors,
non-transparent background (r+g+b > 0) and WCAG contrast ratio strictly
between 1 and 4.5; every element among the first five qualifying ones is
reported; and an element whose ratio is exactly 4.5 is never flagged. -/
theorem C5_checkContrast_spec (g : ℚ → ℚ) (page : PageSnapshot) (device : Device) :
    (checkContrast g page device).length ≤ 5 ∧
    (∀ iss ∈ checkContrast g page device, ∃ el ∈ page.textEls, ∃ c bg,
        el.color = some c ∧ el.bgColor = some bg ∧ 0 < bg.r + bg.g + bg.b ∧
        1 < contrastRatioVal g c bg ∧ contrastRatioVal g c bg < 4.5 ∧
        ∃ fnd, contrastHit g el = some fnd ∧ iss = contrastIssue device fnd) ∧
    (∀ fnd ∈ (page.textEls.filterMap (contrastHit g)).take 5,
        contrastIssue device fnd ∈ checkContrast g page device) ∧
    (∀ el ∈ page.textEls, ∀ c bg, el.color = some c → el.bgColor = some bg →
        contrastRatioVal g c bg = 4.5 → contrastHit g el = none) := by
  refine ⟨?_, ?_, ?_, ?_⟩
  · rw [checkContrast, lowContrastElements_eq, List.length_map]
    exact List.length_take_le 5 _
  · intro iss hiss
    rw [checkContrast, lowContrastElements_eq] at hiss
    rcases List.mem_map.mp hiss with ⟨fnd, hfnd, rfl⟩
    have hfm : fnd ∈ page.textEls.filterMap (contrastHit g) := List.mem_of_mem_take hfnd
    rcases List.mem_filterMap.mp hfm with ⟨el, hel, hhit⟩
    rcases contrastHit_some g el fnd hhit with ⟨c, bg, hc, hbg, hsum, h1, h2, _⟩
    exact ⟨el, hel, c, bg, hc, hbg, hsum, h1, h2, fnd, hhit, rfl⟩
  · intro fnd hfnd
    rw [checkContrast, lowContrastElements_eq]
    exact List.mem_map_of_mem _ hfnd
  · intro el _ c bg hc hbg hr
    exact contrastHit_at_boundary g el c bg hc hbg hr

/- ### Issue-id claim -/

theorem string_data_eq (s1 s2 : String) (h : s1.data = s2.data) : s1 = s2 := by
  cases s1
  cases s2
  simp only at h
  rw [h]

/-- Cancellation of the fixed prefix, separator and device suffix in a
four-part issue id. -/
theorem string_id_cancel (p m d s1 s2 : String)
    (h : p ++ s1 ++ m ++ d = p ++ s2 ++ m ++ d) : s1 = s2 := by
  have hd := congrArg String.data h
  simp only [String.data_append, List.append_assoc] at hd
  have h1 := List.append_cancel_left hd
  have h2 := List.append_cancel_right h1
  exact string_data_eq s1 s2 h2

/-- Default (empty) quality-standards configuration. -/
def stdDefault : Standards := {}

/-- Device used by the concrete detector scenarios. -/
def cDev : Device :=
  { id := "mobile-1"
    name := "Mobile"
    viewport := { width := 375, height := 667 }
    is_mobile := false
    has_touch := false }

/-- Page with two images lacking alt text, with different selectors. -/
def cPage : PageSnapshot :=
  { scrollWidth := 375
    clientWidth := 375
    allElements := []
    overflowEls := []
    clickables := []
    textEls := []
    fontEls := []
    images :=
      [{ src := "a.png", idAttr := "a", className := "", alt := none, role := "" },
       { src := "b.png", idAttr := "b", className := "", alt := none, role := "" }] }

/-- C6 counterexample: on one device, detectIssues reports two image-alt
issues for images with different target selectors (#a and #b), yet their
ids are identical ("img-alt-mobile-1" both), refuting the claim that two
issues of the same check type on the same device with different target
selectors have distinct ids. -/
theorem C6_counterexample_shared_id :
    (detectIssues id stdDefault cPage cDev).map (fun i => i.id) =
        ["img-alt-mobile-1", "img-alt-mobile-1"] ∧
      (detectIssues id stdDefault cPage cDev).map (fun i => i.element) =
        [some { selector := "#a" }, some { selector := "#b" }] ∧
      (detectIssues id stdDefault cPage cDev).map (fun i => typeStr i.type) =
        ["accessibility", "accessibility"] ∧
      (detectIssues id stdDefault cPage cDev).map (fun i => i.device) =
        ["Mobile", "Mobile"] := by
  refine ⟨?_, ?_, ?_, ?_⟩ <;> rfl

/-- C6 amended: image-alt and horizontal-scroll ids are composed of the
check type and device id only, and element-overflow ids use the element
tag in place of the selector; the touch-target, contrast and font-size
checks compose ids from check type, element selector and device id, and
for those three checks issues with different target selectors on the same
device have distinct ids. -/
theorem C6_amended_issue_ids (g : ℚ → ℚ) (std : Standards) (page : PageSnapshot)
    (device : Device) :
    (∀ i ∈ checkImageAlt page device, i.id = "img-alt-" ++ device.id) ∧
    (∀ i, checkHorizontalScroll page device = some i →
      i.id = "horizontal-scroll-" ++ device.id) ∧
    (∀ i ∈ checkOverflow page device,
      ∃ tag, i.id = "overflow-" ++ tag ++ "-" ++ device.id) ∧
    (∀ i ∈ checkTouchTargets std page device, ∃ s, i.element = some { selector := s } ∧
      i.id = "touch-target-" ++ s ++ "-" ++ device.id) ∧
    (∀ i ∈ checkContrast g page device, ∃ s, i.element = some { selector := s } ∧
      i.id = "contrast-" ++ s ++ "-" ++ device.id) ∧
    (∀ i ∈ checkFontSize std page device, ∃ s, i.element = some { selector := s } ∧
      i.id = "font-size-" ++ s ++ "-" ++ device.id) ∧
    (∀ i1 ∈ checkTouchTargets std page device, ∀ i2 ∈ checkTouchTargets std page device,
      ∀ s1 s2, i1.element = some { selector := s1 } → i2.element = some { selector := s2 } →
        ¬ s1 = s2 → ¬ i1.id = i2.id) ∧
    (∀ i1 ∈ checkContrast g page device, ∀ i2 ∈ checkContrast g page device,
      ∀ s1 s2, i1.element = some { selector := s1 } → i2.element = some { selector := s2 } →
        ¬ s1 = s2 → ¬ i1.id = i2.id) ∧
    (∀ i1 ∈ checkFontSize std page device, ∀ i2 ∈ checkFontSize std page device,
      ∀ s1 s2, i1.element = some { selector := s1 } → i2.element = some { selector := s2 } →
        ¬ s1 = s2 → ¬ i1.id = i2.id) := by
  refine ⟨?_, ?_, ?_, ?_, ?_, ?_, ?_, ?_, ?_⟩
  · intro i hi
    exact (mem_checkImageAlt_fields page device i hi).2.2.2
  · intro i hi
    exact (checkHorizontalScroll_fields page device i hi).2.2.2
  · intro i hi
    exact (mem_checkOverflow_fields page device i hi).2.2.2
  · intro i hi
    exact (mem_checkTouchTargets_fields std page device i hi).2.2.2
  · intro i hi
    exact (mem_checkContrast_fields g page device i hi).2.2.2
  · intro i hi
    exact (mem_checkFontSize_fields std page device i hi).2.2.2
  · intro i1 h1 i2 h2 s1 s2 he1 he2 hne hid
    rcases (mem_checkTouchTargets_fields std page device i1 h1).2.2.2 with ⟨t1, het1, hid1⟩
    rcases (mem_checkTouchTargets_fields std page device i2 h2).2.2.2 with ⟨t2, het2, hid2⟩
    rw [he1] at het1
    rw [he2] at het2
    simp only [Option.some.injEq, Element.mk.injEq] at het1 het2
    rw [← het1] at hid1
    rw [← het2] at hid2
    rw [hid1, hid2] at hid
    exact hne (string_id_cancel _ _ _ _ _ hid)
  · intro i1 h1 i2 h2 s1 s2 he1 he2 hne hid
    rcases (mem_checkContrast_fields g page device i1 h1).2.2.2 with ⟨t1, het1, hid1⟩
    rcases (mem_checkContrast_fields g page device i2 h2).2.2.2 with ⟨t2, het2, hid2⟩
    rw [he1] at het1
    rw [he2] at het2
    simp only [Option.some.injEq, Element.mk.injEq] at het1 het2
    rw [← het1] at hid1
    rw [← het2] at hid2
    rw [hid1, hid2] at hid
    exact hne (string_id_cancel _ _ _ _ _ hid)
  · intro i1 h1 i2 h2 s1 s2 he1 he2 hne hid
    rcases (mem_checkFontSize_fields std page device i1 h1).2.2.2 with ⟨t1, het1, hid1⟩
    rcases (mem_checkFontSize_fields std page device i2 h2).2.2.2 with ⟨t2, het2, hid2⟩
    rw [he1] at het1
    rw [he2] at het2
    simp only [Option.some.injEq, Element.mk.injEq] at het1 het2
    rw [← het1] at hid1
    rw [← het2] at hid2
    rw [hid1, hid2] at hid
    exact hne (string_id_cancel _ _ _ _ _ hid)

/- ### Profile-resolution claim -/

/-- Device entry used by the concrete profile scenario. -/
def c7Entry : DeviceEntry :=
  { name := "Known", viewport := { width := 1280, height := 800 } }

/-- Config whose "mixed" profile lists a resolvable id and the unknown id
"ghost". -/
def c7Cfg : DevicesConfig :=
  { test_profiles :=
      [("mixed", { devices := DeviceSel.ids ["known", "ghost"], browsers := ["chromium"] })]
    device_profiles := [("desktop", [("known", c7Entry)])] }

/-- C7 counterexample: resolving a profile whose device list contains the
unknown id "ghost" does not surface any error — it succeeds and returns a
device list that simply omits that id. -/
theorem C7_counterexample_silent_skip :
    getDevicesForProfile c7Cfg "mixed" =
      Except.ok ([mkDevice "known" c7Entry], ["chromium"]) := by rfl

/-- C7 amended: an unknown profile name fails with an error, but a device
id listed in a profile that matches no category is silently skipped:
resolution succeeds and the returned device list merely omits that id. -/
theorem C7_amended_profile_resolution (cfg : DevicesConfig) (profileName : String) :
    (cfg.test_profiles.lookup profileName = none →
      getDevicesForProfile cfg profileName =
        Except.error ("Профиль \"" ++ profileName ++ "\" не найден")) ∧
    (∀ p ids, cfg.test_profiles.lookup profileName = some p →
      p.devices = DeviceSel.ids ids →
      ∃ devs, getDevicesForProfile cfg profileName = Except.ok (devs, p.browsers) ∧
        ∀ id0 ∈ ids, (∀ cat ∈ cfg.device_profiles, cat.2.lookup id0 = none) →
          ∀ d ∈ devs, ¬ d.id = id0) := by
  constructor
  · intro h
    simp only [getDevicesForProfile, h]
  · intro p ids hp hids
    refine ⟨ids.filterMap (fun deviceId =>
      (cfg.device_profiles.findSome? (fun cat => cat.2.lookup deviceId)).map
        (mkDevice deviceId)), ?_, ?_⟩
    · simp only [getDevicesForProfile, hp, hids]
    · intro id0 _ hnone d hd hdid
      rcases List.mem_filterMap.mp hd with ⟨a, _, ha⟩
      rcases Option.map_eq_some'.mp ha with ⟨e, he, hde⟩
      have haid : a = id0 := by
        rw [← hdid, ← hde]
        rfl
      rw [haid] at he
      rw [List.findSome?_eq_none_iff.mpr hnone] at he
      exact absurd he (by simp)

/- ### Concrete fixtures and witnesses -/

/-- Critical blocking layout issue fixture on selector #x, parametrized by
device label. -/
def wIssue (dev : String) : Issue :=
  { id := "horizontal-scroll-d1"
    type := IssueType.layout
    severity := Severity.critical
    title := "t"
    description := "d"
    device := dev
    element := some { selector := "#x" }
    fix := { action := "css_change", target := "#x", suggestion := "s" }
    blocks_release := true }

theorem C1_witness :
    ∃ first rest,
      [wIssue "A", wIssue "B"].filter (fun i => dedupKey i = "layout-#x") = first :: rest ∧
      (deduplicateIssues [wIssue "A", wIssue "B"]).filter
          (fun j => dedupKey j = "layout-#x") =
        [{ first with affected_devices := first.device :: rest.map (fun i => i.device) }] ∧
      (first.device :: rest.map (fun i => i.device)).length = 2 ∧
      (first.device :: rest.map (fun i => i.device)).Nodup :=
  (C1_deduplicateIssues_groups [wIssue "A", wIssue "B"] "layout-#x" 2).1
    ⟨by decide, by decide, by decide⟩

/-- Canonical record produced for the two-device fixture. -/
def wDedupedA : Issue := { wIssue "A" with affected_devices := ["A", "B"] }

theorem C10_witness :
    ∃ f, [wIssue "A", wIssue "B"].find? (fun i => dedupKey i = dedupKey wDedupedA) = some f ∧
      wDedupedA.device = f.device ∧
      wDedupedA = { f with affected_devices := wDedupedA.affected_devices } :=
  (C10_deduplicateIssues_order [wIssue "A", wIssue "B"]).2 wDedupedA (by decide)

/-- Tuple oracle that always succeeds with one critical blocking issue. -/
def wF2 : String → String → Device → TupleOutcome :=
  fun _ _ _ => TupleOutcome.ok [wIssue "Mobile"] 5000

theorem C2_witness :
    (checkPage ["light"] ["chromium"] [cDev] wF2).summary.blocks_release = true :=
  ((C2_blocks_release_iff ["light"] ["chromium"] [cDev] wF2
      (fun _ _ _ => by
        intro i hi
        simp only [wF2, outcomeIssues] at hi
        rcases List.mem_singleton.mp hi with rfl
        intro _
        rfl)).1).mpr
    ⟨{ wIssue "Mobile" with affected_devices := ["Mobile"] }, by decide, by decide⟩

/-- Second device fixture. -/
def c3Dev2 : Device :=
  { id := "desktop-1"
    name := "Desktop"
    viewport := { width := 1280, height := 800 }
    is_mobile := false
    has_touch := false }

/-- Tuple oracle that throws on the mobile device and succeeds elsewhere. -/
def wF3 : String → String → Device → TupleOutcome :=
  fun _ _ d =>
    if d.id = "mobile-1" then TupleOutcome.err "boom" else TupleOutcome.ok [] 5000

theorem C3_witness :
    recordFor wF3 ("light", "chromium", cDev) =
      { device := "Mobile"
        device_id := "mobile-1"
        browser := "chromium"
        colorScheme := "light"
        status := "error"
        error := some "boom" } ∧
    (checkPage ["light"] ["chromium"] [cDev, c3Dev2] wF3).checks.length = 2 := by
  constructor
  · exact (C3_checkPage_total ["light"] ["chromium"] [cDev, c3Dev2] wF3).2.2.1
      ("light", "chromium", cDev) (by decide) "boom" (by decide)
  · rw [(C3_checkPage_total ["light"] ["chromium"] [cDev, c3Dev2] wF3).1]
    rfl

theorem C9_witness :
    ¬ (checkPage ["light"] ["chromium"] [cDev, c3Dev2] wF3).summary.total =
        (checkPage ["light"] ["chromium"] [cDev, c3Dev2] wF3).summary.passed +
          (checkPage ["light"] ["chromium"] [cDev, c3Dev2] wF3).summary.failed +
          (checkPage ["light"] ["chromium"] [cDev, c3Dev2] wF3).summary.warnings :=
  (C9_total_excludes_errors ["light"] ["chromium"] [cDev, c3Dev2] wF3).2.2.2 (by decide)

/-- 1x1 raster fixture. -/
def wImg1 : Image :=
  { width := 1, height := 1, data := [{ r := 0, g := 0, b := 0, a := 255 }] }

/-- 2x1 raster fixture. -/
def wImg2 : Image :=
  { width := 2
    height := 1
    data := [{ r := 0, g := 0, b := 0, a := 255 }, { r := 1, g := 2, b := 3, a := 255 }] }

/-- Default comparator options. -/
def wCfg : PixelCfg := {}

theorem C4_witness :
    compare wCfg (some wImg1) (some wImg2) none =
      CompareOutcome.sizeMismatch (1, 1) (2, 1)
        "Размеры изображений различаются: 1x1 vs 2x1" ∧
    compareWritesDiff wCfg (some wImg1) (some wImg2) none = false :=
  C4_compare_sizeMismatch wCfg wImg1 wImg2 none (Or.inl (by decide))

theorem C8_witness :
    compare wCfg (some wImg1) (some wImg1) (some "diff.png") =
      CompareOutcome.ok true 0 1 0 (1, 1) none ∧
    compareWritesDiff wCfg (some wImg1) (some wImg1) (some "diff.png") = false :=
  C8_compare_identity wCfg wImg1 (some "diff.png") (by norm_num [wCfg])

/-- Text element fixture: black text on a near-black background (ratio
about 1.06, inside the flagged band). -/
def wTextEl : TextEl :=
  { tag := "p"
    idAttr := "t1"
    className := ""
    textContent := "hello"
    color := some { r := 0, g := 0, b := 0 }
    bgColor := some { r := 10, g := 10, b := 10 } }

/-- Page fixture for the contrast scenario. -/
def wPage5 : PageSnapshot :=
  { scrollWidth := 375
    clientWidth := 375
    allElements := []
    overflowEls := []
    clickables := []
    textEls := [wTextEl]
    fontEls := []
    images := [] }

/-- Contrast finding for the fixture element. -/
def wFnd : ContrastFinding :=
  { tag := "p"
    text := "hello"
    selector := "#t1"
    ratioText :=
      toFixed2 (contrastRatioVal id { r := 0, g := 0, b := 0 } { r := 10, g := 10, b := 10 })
    ratioVal := contrastRatioVal id { r := 0, g := 0, b := 0 } { r := 10, g := 10, b := 10 }
    color := { r := 0, g := 0, b := 0 }
    bgColor := { r := 10, g := 10, b := 10 } }

set_option maxRecDepth 4000 in
theorem C5_witness :
    contrastIssue cDev wFnd ∈ checkContrast id wPage5 cDev := by
  have hhit : contrastHit id wTextEl = some wFnd := by
    rw [contrastHit]
    simp only [wTextEl]
    rw [if_pos (by norm_num)]
    rw [if_pos (by
      constructor <;>
        norm_num [contrastRatioVal, getContrastRatioOf, getLuminance, srgbChannel,
          max_def, min_def])]
    simp only [wFnd, Option.some.injEq, ContrastFinding.mk.injEq]
    exact ⟨by decide, by decide⟩
  exact (C5_checkContrast_spec id wPage5 cDev).2.2.1 wFnd
    (by simp [wPage5, List.filterMap_cons, hhit])

theorem C6_witness :
    (imgAltIssue cDev { src := "a.png", selector := "#a" }).id = "img-alt-" ++ cDev.id :=
  (C6_amended_issue_ids id stdDefault cPage cDev).1
    (imgAltIssue cDev { src := "a.png", selector := "#a" }) (by decide)

theorem C7_witness :
    getDevicesForProfile c7Cfg "nope" =
      Except.error ("Профиль \"nope\" не найден") :=
  (C7_amended_profile_resolution c7Cfg "nope").1 (by decide)

end VisualQA
